import Mathlib

/-!
Verification development for the OpenGL 3.3 core-profile trampoline layer
declared in `Godeps/_workspace/src/github.com/obscuren/qml/gl/3.3core/funcs.h`.

The header declares, for every entry point of the profile, a C trampoline
`R gl3_3core_glName(void *_glfuncs, A1 a1, .., An an)` plus the accessor
`void *gl3_3core_funcs()`, together with the GL typedefs.  We embed the
declaration surface verbatim (names, parameter lists, types) as data, and
the table/resolution protocol — whose implementation is external to the
header — as an executable model taken from the design document.
-/

set_option maxRecDepth 100000

namespace GL33Core

/-- The GL scalar types introduced by the typedef block of `funcs.h`
(lines 7–29): each constructor is one typedef name. -/
inductive GLScalar where
  | GLenum | GLboolean | GLbitfield | GLchar | GLbyte | GLshort | GLint
  | GLubyte | GLushort | GLuint | GLsizei | GLfloat | GLclampf | GLdouble
  | GLclampd | GLint64 | GLuint64 | GLintptr | GLsizeiptr | GLintptrARB
  | GLsizeiptrARB | GLsync
deriving DecidableEq

/-- C types occurring in the declarations: `void` (also `GLvoid`, which is
typedef'd to `void`), the GL scalar typedefs, pointers `T*` and pointers to
const `const T*`. -/
inductive CType where
  | void : CType
  | base : GLScalar → CType
  | ptr : CType → CType
  | constPtr : CType → CType
deriving DecidableEq

/-- One C declaration of the header: its exposed C name, the standard GL
entry-point name it forwards to, its return type and its named parameter
list in declaration order. -/
structure GLDecl where
  cname : String
  glName : String
  ret : CType
  params : List (String × CType)
deriving DecidableEq

/-- The accessor `void *gl3_3core_funcs();` (line 36), the sole
non-trampoline declaration of the surface. -/
def gl3_3core_funcs : GLDecl :=
  ⟨"gl3_3core_funcs", "funcs", .ptr .void, []⟩

def glDecls1 : List GLDecl := [
  ⟨"gl3_3core_glViewport", "glViewport", .void, [("_glfuncs", .ptr CType.void), ("x", .base .GLint), ("y", .base .GLint), ("width", .base .GLsizei), ("height", .base .GLsizei)]⟩,
  ⟨"gl3_3core_glDepthRange", "glDepthRange", .void, [("_glfuncs", .ptr CType.void), ("nearVal", .base .GLdouble), ("farVal", .base .GLdouble)]⟩,
  ⟨"gl3_3core_glIsEnabled", "glIsEnabled", .base .GLboolean, [("_glfuncs", .ptr CType.void), ("cap", .base .GLenum)]⟩,
  ⟨"gl3_3core_glGetTexLevelParameteriv", "glGetTexLevelParameteriv", .void, [("_glfuncs", .ptr CType.void), ("target", .base .GLenum), ("level", .base .GLint), ("pname", .base .GLenum), ("params", .ptr (.base .GLint))]⟩,
  ⟨"gl3_3core_glGetTexLevelParameterfv", "glGetTexLevelParameterfv", .void, [("_glfuncs", .ptr CType.void), ("target", .base .GLenum), ("level", .base .GLint), ("pname", .base .GLenum), ("params", .ptr (.base .GLfloat))]⟩,
  ⟨"gl3_3core_glGetTexParameteriv", "glGetTexParameteriv", .void, [("_glfuncs", .ptr CType.void), ("target", .base .GLenum), ("pname", .base .GLenum), ("params", .ptr (.base .GLint))]⟩,
  ⟨"gl3_3core_glGetTexParameterfv", "glGetTexParameterfv", .void, [("_glfuncs", .ptr CType.void), ("target", .base .GLenum), ("pname", .base .GLenum), ("params", .ptr (.base .GLfloat))]⟩,
  ⟨"gl3_3core_glGetTexImage", "glGetTexImage", .void, [("_glfuncs", .ptr CType.void), ("target", .base .GLenum), ("level", .base .GLint), ("format", .base .GLenum), ("gltype", .base .GLenum), ("pixels", .ptr CType.void)]⟩,
  ⟨"gl3_3core_glGetIntegerv", "glGetIntegerv", .void, [("_glfuncs", .ptr CType.void), ("pname", .base .GLenum), ("params", .ptr (.base .GLint))]⟩,
  ⟨"gl3_3core_glGetFloatv", "glGetFloatv", .void, [("_glfuncs", .ptr CType.void), ("pname", .base .GLenum), ("params", .ptr (.base .GLfloat))]⟩,
  ⟨"gl3_3core_glGetError", "glGetError", .base .GLenum, [("_glfuncs", .ptr CType.void)]⟩,
  ⟨"gl3_3core_glGetDoublev", "glGetDoublev", .void, [("_glfuncs", .ptr CType.void), ("pname", .base .GLenum), ("params", .ptr (.base .GLdouble))]⟩,
  ⟨"gl3_3core_glGetBooleanv", "glGetBooleanv", .void, [("_glfuncs", .ptr CType.void), ("pname", .base .GLenum), ("params", .ptr (.base .GLboolean))]⟩,
  ⟨"gl3_3core_glReadPixels", "glReadPixels", .void, [("_glfuncs", .ptr CType.void), ("x", .base .GLint), ("y", .base .GLint), ("width", .base .GLsizei), ("height", .base .GLsizei), ("format", .base .GLenum), ("gltype", .base .GLenum), ("pixels", .ptr CType.void)]⟩,
  ⟨"gl3_3core_glReadBuffer", "glReadBuffer", .void, [("_glfuncs", .ptr CType.void), ("mode", .base .GLenum)]⟩,
  ⟨"gl3_3core_glPixelStorei", "glPixelStorei", .void, [("_glfuncs", .ptr CType.void), ("pname", .base .GLenum), ("param", .base .GLint)]⟩,
  ⟨"gl3_3core_glPixelStoref", "glPixelStoref", .void, [("_glfuncs", .ptr CType.void), ("pname", .base .GLenum), ("param", .base .GLfloat)]⟩,
  ⟨"gl3_3core_glDepthFunc", "glDepthFunc", .void, [("_glfuncs", .ptr CType.void), ("glfunc", .base .GLenum)]⟩,
  ⟨"gl3_3core_glStencilOp", "glStencilOp", .void, [("_glfuncs", .ptr CType.void), ("fail", .base .GLenum), ("zfail", .base .GLenum), ("zpass", .base .GLenum)]⟩,
  ⟨"gl3_3core_glStencilFunc", "glStencilFunc", .void, [("_glfuncs", .ptr CType.void), ("glfunc", .base .GLenum), ("ref", .base .GLint), ("mask", .base .GLuint)]⟩,
  ⟨"gl3_3core_glLogicOp", "glLogicOp", .void, [("_glfuncs", .ptr CType.void), ("opcode", .base .GLenum)]⟩,
  ⟨"gl3_3core_glBlendFunc", "glBlendFunc", .void, [("_glfuncs", .ptr CType.void), ("sfactor", .base .GLenum), ("dfactor", .base .GLenum)]⟩,
  ⟨"gl3_3core_glFlush", "glFlush", .void, [("_glfuncs", .ptr CType.void)]⟩,
  ⟨"gl3_3core_glFinish", "glFinish", .void, [("_glfuncs", .ptr CType.void)]⟩,
  ⟨"gl3_3core_glEnable", "glEnable", .void, [("_glfuncs", .ptr CType.void), ("cap", .base .GLenum)]⟩,
  ⟨"gl3_3core_glDisable", "glDisable", .void, [("_glfuncs", .ptr CType.void), ("cap", .base .GLenum)]⟩,
  ⟨"gl3_3core_glDepthMask", "glDepthMask", .void, [("_glfuncs", .ptr CType.void), ("flag", .base .GLboolean)]⟩,
  ⟨"gl3_3core_glColorMask", "glColorMask", .void, [("_glfuncs", .ptr CType.void), ("red", .base .GLboolean), ("green", .base .GLboolean), ("blue", .base .GLboolean), ("alpha", .base .GLboolean)]⟩,
  ⟨"gl3_3core_glStencilMask", "glStencilMask", .void, [("_glfuncs", .ptr CType.void), ("mask", .base .GLuint)]⟩,
  ⟨"gl3_3core_glClearDepth", "glClearDepth", .void, [("_glfuncs", .ptr CType.void), ("depth", .base .GLdouble)]⟩,
  ⟨"gl3_3core_glClearStencil", "glClearStencil", .void, [("_glfuncs", .ptr CType.void), ("s", .base .GLint)]⟩,
  ⟨"gl3_3core_glClearColor", "glClearColor", .void, [("_glfuncs", .ptr CType.void), ("red", .base .GLfloat), ("green", .base .GLfloat), ("blue", .base .GLfloat), ("alpha", .base .GLfloat)]⟩,
  ⟨"gl3_3core_glClear", "glClear", .void, [("_glfuncs", .ptr CType.void), ("mask", .base .GLbitfield)]⟩,
  ⟨"gl3_3core_glDrawBuffer", "glDrawBuffer", .void, [("_glfuncs", .ptr CType.void), ("mode", .base .GLenum)]⟩,
  ⟨"gl3_3core_glTexImage2D", "glTexImage2D", .void, [("_glfuncs", .ptr CType.void), ("target", .base .GLenum), ("level", .base .GLint), ("internalFormat", .base .GLint), ("width", .base .GLsizei), ("height", .base .GLsizei), ("border", .base .GLint), ("format", .base .GLenum), ("gltype", .base .GLenum), ("pixels", .constPtr CType.void)]⟩,
  ⟨"gl3_3core_glTexImage1D", "glTexImage1D", .void, [("_glfuncs", .ptr CType.void), ("target", .base .GLenum), ("level", .base .GLint), ("internalFormat", .base .GLint), ("width", .base .GLsizei), ("border", .base .GLint), ("format", .base .GLenum), ("gltype", .base .GLenum), ("pixels", .constPtr CType.void)]⟩,
  ⟨"gl3_3core_glTexParameteriv", "glTexParameteriv", .void, [("_glfuncs", .ptr CType.void), ("target", .base .GLenum), ("pname", .base .GLenum), ("params", .constPtr (.base .GLint))]⟩,
  ⟨"gl3_3core_glTexParameteri", "glTexParameteri", .void, [("_glfuncs", .ptr CType.void), ("target", .base .GLenum), ("pname", .base .GLenum), ("param", .base .GLint)]⟩,
  ⟨"gl3_3core_glTexParameterfv", "glTexParameterfv", .void, [("_glfuncs", .ptr CType.void), ("target", .base .GLenum), ("pname", .base .GLenum), ("params", .constPtr (.base .GLfloat))]⟩,
  ⟨"gl3_3core_glTexParameterf", "glTexParameterf", .void, [("_glfuncs", .ptr CType.void), ("target", .base .GLenum), ("pname", .base .GLenum), ("param", .base .GLfloat)]⟩,
  ⟨"gl3_3core_glScissor", "glScissor", .void, [("_glfuncs", .ptr CType.void), ("x", .base .GLint), ("y", .base .GLint), ("width", .base .GLsizei), ("height", .base .GLsizei)]⟩,
  ⟨"gl3_3core_glPolygonMode", "glPolygonMode", .void, [("_glfuncs", .ptr CType.void), ("face", .base .GLenum), ("mode", .base .GLenum)]⟩,
  ⟨"gl3_3core_glPointSize", "glPointSize", .void, [("_glfuncs", .ptr CType.void), ("size", .base .GLfloat)]⟩,
  ⟨"gl3_3core_glLineWidth", "glLineWidth", .void, [("_glfuncs", .ptr CType.void), ("width", .base .GLfloat)]⟩,
  ⟨"gl3_3core_glHint", "glHint", .void, [("_glfuncs", .ptr CType.void), ("target", .base .GLenum), ("mode", .base .GLenum)]⟩,
  ⟨"gl3_3core_glFrontFace", "glFrontFace", .void, [("_glfuncs", .ptr CType.void), ("mode", .base .GLenum)]⟩,
  ⟨"gl3_3core_glCullFace", "glCullFace", .void, [("_glfuncs", .ptr CType.void), ("mode", .base .GLenum)]⟩,
  ⟨"gl3_3core_glIndexubv", "glIndexubv", .void, [("_glfuncs", .ptr CType.void), ("c", .constPtr (.base .GLubyte))]⟩,
  ⟨"gl3_3core_glIndexub", "glIndexub", .void, [("_glfuncs", .ptr CType.void), ("c", .base .GLubyte)]⟩,
  ⟨"gl3_3core_glIsTexture", "glIsTexture", .base .GLboolean, [("_glfuncs", .ptr CType.void), ("texture", .base .GLuint)]⟩
]

def glDecls2 : List GLDecl := [
  ⟨"gl3_3core_glGenTextures", "glGenTextures", .void, [("_glfuncs", .ptr CType.void), ("n", .base .GLsizei), ("textures", .ptr (.base .GLuint))]⟩,
  ⟨"gl3_3core_glDeleteTextures", "glDeleteTextures", .void, [("_glfuncs", .ptr CType.void), ("n", .base .GLsizei), ("textures", .constPtr (.base .GLuint))]⟩,
  ⟨"gl3_3core_glBindTexture", "glBindTexture", .void, [("_glfuncs", .ptr CType.void), ("target", .base .GLenum), ("texture", .base .GLuint)]⟩,
  ⟨"gl3_3core_glTexSubImage2D", "glTexSubImage2D", .void, [("_glfuncs", .ptr CType.void), ("target", .base .GLenum), ("level", .base .GLint), ("xoffset", .base .GLint), ("yoffset", .base .GLint), ("width", .base .GLsizei), ("height", .base .GLsizei), ("format", .base .GLenum), ("gltype", .base .GLenum), ("pixels", .constPtr CType.void)]⟩,
  ⟨"gl3_3core_glTexSubImage1D", "glTexSubImage1D", .void, [("_glfuncs", .ptr CType.void), ("target", .base .GLenum), ("level", .base .GLint), ("xoffset", .base .GLint), ("width", .base .GLsizei), ("format", .base .GLenum), ("gltype", .base .GLenum), ("pixels", .constPtr CType.void)]⟩,
  ⟨"gl3_3core_glCopyTexSubImage2D", "glCopyTexSubImage2D", .void, [("_glfuncs", .ptr CType.void), ("target", .base .GLenum), ("level", .base .GLint), ("xoffset", .base .GLint), ("yoffset", .base .GLint), ("x", .base .GLint), ("y", .base .GLint), ("width", .base .GLsizei), ("height", .base .GLsizei)]⟩,
  ⟨"gl3_3core_glCopyTexSubImage1D", "glCopyTexSubImage1D", .void, [("_glfuncs", .ptr CType.void), ("target", .base .GLenum), ("level", .base .GLint), ("xoffset", .base .GLint), ("x", .base .GLint), ("y", .base .GLint), ("width", .base .GLsizei)]⟩,
  ⟨"gl3_3core_glCopyTexImage2D", "glCopyTexImage2D", .void, [("_glfuncs", .ptr CType.void), ("target", .base .GLenum), ("level", .base .GLint), ("internalFormat", .base .GLenum), ("x", .base .GLint), ("y", .base .GLint), ("width", .base .GLsizei), ("height", .base .GLsizei), ("border", .base .GLint)]⟩,
  ⟨"gl3_3core_glCopyTexImage1D", "glCopyTexImage1D", .void, [("_glfuncs", .ptr CType.void), ("target", .base .GLenum), ("level", .base .GLint), ("internalFormat", .base .GLenum), ("x", .base .GLint), ("y", .base .GLint), ("width", .base .GLsizei), ("border", .base .GLint)]⟩,
  ⟨"gl3_3core_glPolygonOffset", "glPolygonOffset", .void, [("_glfuncs", .ptr CType.void), ("factor", .base .GLfloat), ("units", .base .GLfloat)]⟩,
  ⟨"gl3_3core_glDrawElements", "glDrawElements", .void, [("_glfuncs", .ptr CType.void), ("mode", .base .GLenum), ("count", .base .GLsizei), ("gltype", .base .GLenum), ("indices", .constPtr CType.void)]⟩,
  ⟨"gl3_3core_glDrawArrays", "glDrawArrays", .void, [("_glfuncs", .ptr CType.void), ("mode", .base .GLenum), ("first", .base .GLint), ("count", .base .GLsizei)]⟩,
  ⟨"gl3_3core_glCopyTexSubImage3D", "glCopyTexSubImage3D", .void, [("_glfuncs", .ptr CType.void), ("target", .base .GLenum), ("level", .base .GLint), ("xoffset", .base .GLint), ("yoffset", .base .GLint), ("zoffset", .base .GLint), ("x", .base .GLint), ("y", .base .GLint), ("width", .base .GLsizei), ("height", .base .GLsizei)]⟩,
  ⟨"gl3_3core_glTexSubImage3D", "glTexSubImage3D", .void, [("_glfuncs", .ptr CType.void), ("target", .base .GLenum), ("level", .base .GLint), ("xoffset", .base .GLint), ("yoffset", .base .GLint), ("zoffset", .base .GLint), ("width", .base .GLsizei), ("height", .base .GLsizei), ("depth", .base .GLsizei), ("format", .base .GLenum), ("gltype", .base .GLenum), ("pixels", .constPtr CType.void)]⟩,
  ⟨"gl3_3core_glTexImage3D", "glTexImage3D", .void, [("_glfuncs", .ptr CType.void), ("target", .base .GLenum), ("level", .base .GLint), ("internalFormat", .base .GLint), ("width", .base .GLsizei), ("height", .base .GLsizei), ("depth", .base .GLsizei), ("border", .base .GLint), ("format", .base .GLenum), ("gltype", .base .GLenum), ("pixels", .constPtr CType.void)]⟩,
  ⟨"gl3_3core_glDrawRangeElements", "glDrawRangeElements", .void, [("_glfuncs", .ptr CType.void), ("mode", .base .GLenum), ("start", .base .GLuint), ("end", .base .GLuint), ("count", .base .GLsizei), ("gltype", .base .GLenum), ("indices", .constPtr CType.void)]⟩,
  ⟨"gl3_3core_glBlendEquation", "glBlendEquation", .void, [("_glfuncs", .ptr CType.void), ("mode", .base .GLenum)]⟩,
  ⟨"gl3_3core_glBlendColor", "glBlendColor", .void, [("_glfuncs", .ptr CType.void), ("red", .base .GLfloat), ("green", .base .GLfloat), ("blue", .base .GLfloat), ("alpha", .base .GLfloat)]⟩,
  ⟨"gl3_3core_glGetCompressedTexImage", "glGetCompressedTexImage", .void, [("_glfuncs", .ptr CType.void), ("target", .base .GLenum), ("level", .base .GLint), ("img", .ptr CType.void)]⟩,
  ⟨"gl3_3core_glCompressedTexSubImage1D", "glCompressedTexSubImage1D", .void, [("_glfuncs", .ptr CType.void), ("target", .base .GLenum), ("level", .base .GLint), ("xoffset", .base .GLint), ("width", .base .GLsizei), ("format", .base .GLenum), ("imageSize", .base .GLsizei), ("data", .constPtr CType.void)]⟩,
  ⟨"gl3_3core_glCompressedTexSubImage2D", "glCompressedTexSubImage2D", .void, [("_glfuncs", .ptr CType.void), ("target", .base .GLenum), ("level", .base .GLint), ("xoffset", .base .GLint), ("yoffset", .base .GLint), ("width", .base .GLsizei), ("height", .base .GLsizei), ("format", .base .GLenum), ("imageSize", .base .GLsizei), ("data", .constPtr CType.void)]⟩,
  ⟨"gl3_3core_glCompressedTexSubImage3D", "glCompressedTexSubImage3D", .void, [("_glfuncs", .ptr CType.void), ("target", .base .GLenum), ("level", .base .GLint), ("xoffset", .base .GLint), ("yoffset", .base .GLint), ("zoffset", .base .GLint), ("width", .base .GLsizei), ("height", .base .GLsizei), ("depth", .base .GLsizei), ("format", .base .GLenum), ("imageSize", .base .GLsizei), ("data", .constPtr CType.void)]⟩,
  ⟨"gl3_3core_glCompressedTexImage1D", "glCompressedTexImage1D", .void, [("_glfuncs", .ptr CType.void), ("target", .base .GLenum), ("level", .base .GLint), ("internalFormat", .base .GLenum), ("width", .base .GLsizei), ("border", .base .GLint), ("imageSize", .base .GLsizei), ("data", .constPtr CType.void)]⟩,
  ⟨"gl3_3core_glCompressedTexImage2D", "glCompressedTexImage2D", .void, [("_glfuncs", .ptr CType.void), ("target", .base .GLenum), ("level", .base .GLint), ("internalFormat", .base .GLenum), ("width", .base .GLsizei), ("height", .base .GLsizei), ("border", .base .GLint), ("imageSize", .base .GLsizei), ("data", .constPtr CType.void)]⟩,
  ⟨"gl3_3core_glCompressedTexImage3D", "glCompressedTexImage3D", .void, [("_glfuncs", .ptr CType.void), ("target", .base .GLenum), ("level", .base .GLint), ("internalFormat", .base .GLenum), ("width", .base .GLsizei), ("height", .base .GLsizei), ("depth", .base .GLsizei), ("border", .base .GLint), ("imageSize", .base .GLsizei), ("data", .constPtr CType.void)]⟩,
  ⟨"gl3_3core_glSampleCoverage", "glSampleCoverage", .void, [("_glfuncs", .ptr CType.void), ("value", .base .GLfloat), ("invert", .base .GLboolean)]⟩,
  ⟨"gl3_3core_glActiveTexture", "glActiveTexture", .void, [("_glfuncs", .ptr CType.void), ("texture", .base .GLenum)]⟩,
  ⟨"gl3_3core_glPointParameteriv", "glPointParameteriv", .void, [("_glfuncs", .ptr CType.void), ("pname", .base .GLenum), ("params", .constPtr (.base .GLint))]⟩,
  ⟨"gl3_3core_glPointParameteri", "glPointParameteri", .void, [("_glfuncs", .ptr CType.void), ("pname", .base .GLenum), ("param", .base .GLint)]⟩,
  ⟨"gl3_3core_glPointParameterfv", "glPointParameterfv", .void, [("_glfuncs", .ptr CType.void), ("pname", .base .GLenum), ("params", .constPtr (.base .GLfloat))]⟩,
  ⟨"gl3_3core_glPointParameterf", "glPointParameterf", .void, [("_glfuncs", .ptr CType.void), ("pname", .base .GLenum), ("param", .base .GLfloat)]⟩,
  ⟨"gl3_3core_glMultiDrawArrays", "glMultiDrawArrays", .void, [("_glfuncs", .ptr CType.void), ("mode", .base .GLenum), ("first", .constPtr (.base .GLint)), ("count", .constPtr (.base .GLsizei)), ("drawcount", .base .GLsizei)]⟩,
  ⟨"gl3_3core_glBlendFuncSeparate", "glBlendFuncSeparate", .void, [("_glfuncs", .ptr CType.void), ("sfactorRGB", .base .GLenum), ("dfactorRGB", .base .GLenum), ("sfactorAlpha", .base .GLenum), ("dfactorAlpha", .base .GLenum)]⟩,
  ⟨"gl3_3core_glGetBufferParameteriv", "glGetBufferParameteriv", .void, [("_glfuncs", .ptr CType.void), ("target", .base .GLenum), ("pname", .base .GLenum), ("params", .ptr (.base .GLint))]⟩,
  ⟨"gl3_3core_glUnmapBuffer", "glUnmapBuffer", .base .GLboolean, [("_glfuncs", .ptr CType.void), ("target", .base .GLenum)]⟩,
  ⟨"gl3_3core_glGetBufferSubData", "glGetBufferSubData", .void, [("_glfuncs", .ptr CType.void), ("target", .base .GLenum), ("offset", .base .GLintptr), ("size", .base .GLsizeiptr), ("data", .ptr CType.void)]⟩,
  ⟨"gl3_3core_glBufferSubData", "glBufferSubData", .void, [("_glfuncs", .ptr CType.void), ("target", .base .GLenum), ("offset", .base .GLintptr), ("size", .base .GLsizeiptr), ("data", .constPtr CType.void)]⟩,
  ⟨"gl3_3core_glBufferData", "glBufferData", .void, [("_glfuncs", .ptr CType.void), ("target", .base .GLenum), ("size", .base .GLsizeiptr), ("data", .constPtr CType.void), ("usage", .base .GLenum)]⟩,
  ⟨"gl3_3core_glIsBuffer", "glIsBuffer", .base .GLboolean, [("_glfuncs", .ptr CType.void), ("buffer", .base .GLuint)]⟩,
  ⟨"gl3_3core_glGenBuffers", "glGenBuffers", .void, [("_glfuncs", .ptr CType.void), ("n", .base .GLsizei), ("buffers", .ptr (.base .GLuint))]⟩,
  ⟨"gl3_3core_glDeleteBuffers", "glDeleteBuffers", .void, [("_glfuncs", .ptr CType.void), ("n", .base .GLsizei), ("buffers", .constPtr (.base .GLuint))]⟩,
  ⟨"gl3_3core_glBindBuffer", "glBindBuffer", .void, [("_glfuncs", .ptr CType.void), ("target", .base .GLenum), ("buffer", .base .GLuint)]⟩,
  ⟨"gl3_3core_glGetQueryObjectuiv", "glGetQueryObjectuiv", .void, [("_glfuncs", .ptr CType.void), ("id", .base .GLuint), ("pname", .base .GLenum), ("params", .ptr (.base .GLuint))]⟩,
  ⟨"gl3_3core_glGetQueryObjectiv", "glGetQueryObjectiv", .void, [("_glfuncs", .ptr CType.void), ("id", .base .GLuint), ("pname", .base .GLenum), ("params", .ptr (.base .GLint))]⟩,
  ⟨"gl3_3core_glGetQueryiv", "glGetQueryiv", .void, [("_glfuncs", .ptr CType.void), ("target", .base .GLenum), ("pname", .base .GLenum), ("params", .ptr (.base .GLint))]⟩,
  ⟨"gl3_3core_glEndQuery", "glEndQuery", .void, [("_glfuncs", .ptr CType.void), ("target", .base .GLenum)]⟩,
  ⟨"gl3_3core_glBeginQuery", "glBeginQuery", .void, [("_glfuncs", .ptr CType.void), ("target", .base .GLenum), ("id", .base .GLuint)]⟩,
  ⟨"gl3_3core_glIsQuery", "glIsQuery", .base .GLboolean, [("_glfuncs", .ptr CType.void), ("id", .base .GLuint)]⟩,
  ⟨"gl3_3core_glDeleteQueries", "glDeleteQueries", .void, [("_glfuncs", .ptr CType.void), ("n", .base .GLsizei), ("ids", .constPtr (.base .GLuint))]⟩,
  ⟨"gl3_3core_glGenQueries", "glGenQueries", .void, [("_glfuncs", .ptr CType.void), ("n", .base .GLsizei), ("ids", .ptr (.base .GLuint))]⟩
]

def glDecls3 : List GLDecl := [
  ⟨"gl3_3core_glVertexAttribPointer", "glVertexAttribPointer", .void, [("_glfuncs", .ptr CType.void), ("index", .base .GLuint), ("size", .base .GLint), ("gltype", .base .GLenum), ("normalized", .base .GLboolean), ("stride", .base .GLsizei), ("offset", .constPtr CType.void)]⟩,
  ⟨"gl3_3core_glValidateProgram", "glValidateProgram", .void, [("_glfuncs", .ptr CType.void), ("program", .base .GLuint)]⟩,
  ⟨"gl3_3core_glUniformMatrix4fv", "glUniformMatrix4fv", .void, [("_glfuncs", .ptr CType.void), ("location", .base .GLint), ("count", .base .GLsizei), ("transpose", .base .GLboolean), ("value", .constPtr (.base .GLfloat))]⟩,
  ⟨"gl3_3core_glUniformMatrix3fv", "glUniformMatrix3fv", .void, [("_glfuncs", .ptr CType.void), ("location", .base .GLint), ("count", .base .GLsizei), ("transpose", .base .GLboolean), ("value", .constPtr (.base .GLfloat))]⟩,
  ⟨"gl3_3core_glUniformMatrix2fv", "glUniformMatrix2fv", .void, [("_glfuncs", .ptr CType.void), ("location", .base .GLint), ("count", .base .GLsizei), ("transpose", .base .GLboolean), ("value", .constPtr (.base .GLfloat))]⟩,
  ⟨"gl3_3core_glUniform4iv", "glUniform4iv", .void, [("_glfuncs", .ptr CType.void), ("location", .base .GLint), ("count", .base .GLsizei), ("value", .constPtr (.base .GLint))]⟩,
  ⟨"gl3_3core_glUniform3iv", "glUniform3iv", .void, [("_glfuncs", .ptr CType.void), ("location", .base .GLint), ("count", .base .GLsizei), ("value", .constPtr (.base .GLint))]⟩,
  ⟨"gl3_3core_glUniform2iv", "glUniform2iv", .void, [("_glfuncs", .ptr CType.void), ("location", .base .GLint), ("count", .base .GLsizei), ("value", .constPtr (.base .GLint))]⟩,
  ⟨"gl3_3core_glUniform1iv", "glUniform1iv", .void, [("_glfuncs", .ptr CType.void), ("location", .base .GLint), ("count", .base .GLsizei), ("value", .constPtr (.base .GLint))]⟩,
  ⟨"gl3_3core_glUniform4fv", "glUniform4fv", .void, [("_glfuncs", .ptr CType.void), ("location", .base .GLint), ("count", .base .GLsizei), ("value", .constPtr (.base .GLfloat))]⟩,
  ⟨"gl3_3core_glUniform3fv", "glUniform3fv", .void, [("_glfuncs", .ptr CType.void), ("location", .base .GLint), ("count", .base .GLsizei), ("value", .constPtr (.base .GLfloat))]⟩,
  ⟨"gl3_3core_glUniform2fv", "glUniform2fv", .void, [("_glfuncs", .ptr CType.void), ("location", .base .GLint), ("count", .base .GLsizei), ("value", .constPtr (.base .GLfloat))]⟩,
  ⟨"gl3_3core_glUniform1fv", "glUniform1fv", .void, [("_glfuncs", .ptr CType.void), ("location", .base .GLint), ("count", .base .GLsizei), ("value", .constPtr (.base .GLfloat))]⟩,
  ⟨"gl3_3core_glUniform4i", "glUniform4i", .void, [("_glfuncs", .ptr CType.void), ("location", .base .GLint), ("v0", .base .GLint), ("v1", .base .GLint), ("v2", .base .GLint), ("v3", .base .GLint)]⟩,
  ⟨"gl3_3core_glUniform3i", "glUniform3i", .void, [("_glfuncs", .ptr CType.void), ("location", .base .GLint), ("v0", .base .GLint), ("v1", .base .GLint), ("v2", .base .GLint)]⟩,
  ⟨"gl3_3core_glUniform2i", "glUniform2i", .void, [("_glfuncs", .ptr CType.void), ("location", .base .GLint), ("v0", .base .GLint), ("v1", .base .GLint)]⟩,
  ⟨"gl3_3core_glUniform1i", "glUniform1i", .void, [("_glfuncs", .ptr CType.void), ("location", .base .GLint), ("v0", .base .GLint)]⟩,
  ⟨"gl3_3core_glUniform4f", "glUniform4f", .void, [("_glfuncs", .ptr CType.void), ("location", .base .GLint), ("v0", .base .GLfloat), ("v1", .base .GLfloat), ("v2", .base .GLfloat), ("v3", .base .GLfloat)]⟩,
  ⟨"gl3_3core_glUniform3f", "glUniform3f", .void, [("_glfuncs", .ptr CType.void), ("location", .base .GLint), ("v0", .base .GLfloat), ("v1", .base .GLfloat), ("v2", .base .GLfloat)]⟩,
  ⟨"gl3_3core_glUniform2f", "glUniform2f", .void, [("_glfuncs", .ptr CType.void), ("location", .base .GLint), ("v0", .base .GLfloat), ("v1", .base .GLfloat)]⟩,
  ⟨"gl3_3core_glUniform1f", "glUniform1f", .void, [("_glfuncs", .ptr CType.void), ("location", .base .GLint), ("v0", .base .GLfloat)]⟩,
  ⟨"gl3_3core_glUseProgram", "glUseProgram", .void, [("_glfuncs", .ptr CType.void), ("program", .base .GLuint)]⟩,
  ⟨"gl3_3core_glShaderSource", "glShaderSource", .void, [("_glfuncs", .ptr CType.void), ("shader", .base .GLuint), ("count", .base .GLsizei), ("source", .ptr (.constPtr (.base .GLchar))), ("length", .constPtr (.base .GLint))]⟩,
  ⟨"gl3_3core_glLinkProgram", "glLinkProgram", .void, [("_glfuncs", .ptr CType.void), ("program", .base .GLuint)]⟩,
  ⟨"gl3_3core_glIsShader", "glIsShader", .base .GLboolean, [("_glfuncs", .ptr CType.void), ("shader", .base .GLuint)]⟩,
  ⟨"gl3_3core_glIsProgram", "glIsProgram", .base .GLboolean, [("_glfuncs", .ptr CType.void), ("program", .base .GLuint)]⟩,
  ⟨"gl3_3core_glGetVertexAttribiv", "glGetVertexAttribiv", .void, [("_glfuncs", .ptr CType.void), ("index", .base .GLuint), ("pname", .base .GLenum), ("params", .ptr (.base .GLint))]⟩,
  ⟨"gl3_3core_glGetVertexAttribfv", "glGetVertexAttribfv", .void, [("_glfuncs", .ptr CType.void), ("index", .base .GLuint), ("pname", .base .GLenum), ("params", .ptr (.base .GLfloat))]⟩,
  ⟨"gl3_3core_glGetVertexAttribdv", "glGetVertexAttribdv", .void, [("_glfuncs", .ptr CType.void), ("index", .base .GLuint), ("pname", .base .GLenum), ("params", .ptr (.base .GLdouble))]⟩,
  ⟨"gl3_3core_glGetUniformiv", "glGetUniformiv", .void, [("_glfuncs", .ptr CType.void), ("program", .base .GLuint), ("location", .base .GLint), ("params", .ptr (.base .GLint))]⟩,
  ⟨"gl3_3core_glGetUniformfv", "glGetUniformfv", .void, [("_glfuncs", .ptr CType.void), ("program", .base .GLuint), ("location", .base .GLint), ("params", .ptr (.base .GLfloat))]⟩,
  ⟨"gl3_3core_glGetUniformLocation", "glGetUniformLocation", .base .GLint, [("_glfuncs", .ptr CType.void), ("program", .base .GLuint), ("name", .constPtr (.base .GLchar))]⟩,
  ⟨"gl3_3core_glGetShaderSource", "glGetShaderSource", .void, [("_glfuncs", .ptr CType.void), ("shader", .base .GLuint), ("bufSize", .base .GLsizei), ("length", .ptr (.base .GLsizei)), ("source", .ptr (.base .GLchar))]⟩,
  ⟨"gl3_3core_glGetShaderInfoLog", "glGetShaderInfoLog", .void, [("_glfuncs", .ptr CType.void), ("shader", .base .GLuint), ("bufSize", .base .GLsizei), ("length", .ptr (.base .GLsizei)), ("infoLog", .ptr (.base .GLchar))]⟩,
  ⟨"gl3_3core_glGetShaderiv", "glGetShaderiv", .void, [("_glfuncs", .ptr CType.void), ("shader", .base .GLuint), ("pname", .base .GLenum), ("params", .ptr (.base .GLint))]⟩,
  ⟨"gl3_3core_glGetProgramInfoLog", "glGetProgramInfoLog", .void, [("_glfuncs", .ptr CType.void), ("program", .base .GLuint), ("bufSize", .base .GLsizei), ("length", .ptr (.base .GLsizei)), ("infoLog", .ptr (.base .GLchar))]⟩,
  ⟨"gl3_3core_glGetProgramiv", "glGetProgramiv", .void, [("_glfuncs", .ptr CType.void), ("program", .base .GLuint), ("pname", .base .GLenum), ("params", .ptr (.base .GLint))]⟩,
  ⟨"gl3_3core_glGetAttribLocation", "glGetAttribLocation", .base .GLint, [("_glfuncs", .ptr CType.void), ("program", .base .GLuint), ("name", .constPtr (.base .GLchar))]⟩,
  ⟨"gl3_3core_glGetAttachedShaders", "glGetAttachedShaders", .void, [("_glfuncs", .ptr CType.void), ("program", .base .GLuint), ("maxCount", .base .GLsizei), ("count", .ptr (.base .GLsizei)), ("obj", .ptr (.base .GLuint))]⟩,
  ⟨"gl3_3core_glGetActiveUniform", "glGetActiveUniform", .void, [("_glfuncs", .ptr CType.void), ("program", .base .GLuint), ("index", .base .GLuint), ("bufSize", .base .GLsizei), ("length", .ptr (.base .GLsizei)), ("size", .ptr (.base .GLint)), ("gltype", .ptr (.base .GLenum)), ("name", .ptr (.base .GLchar))]⟩,
  ⟨"gl3_3core_glGetActiveAttrib", "glGetActiveAttrib", .void, [("_glfuncs", .ptr CType.void), ("program", .base .GLuint), ("index", .base .GLuint), ("bufSize", .base .GLsizei), ("length", .ptr (.base .GLsizei)), ("size", .ptr (.base .GLint)), ("gltype", .ptr (.base .GLenum)), ("name", .ptr (.base .GLchar))]⟩,
  ⟨"gl3_3core_glEnableVertexAttribArray", "glEnableVertexAttribArray", .void, [("_glfuncs", .ptr CType.void), ("index", .base .GLuint)]⟩,
  ⟨"gl3_3core_glDisableVertexAttribArray", "glDisableVertexAttribArray", .void, [("_glfuncs", .ptr CType.void), ("index", .base .GLuint)]⟩,
  ⟨"gl3_3core_glDetachShader", "glDetachShader", .void, [("_glfuncs", .ptr CType.void), ("program", .base .GLuint), ("shader", .base .GLuint)]⟩,
  ⟨"gl3_3core_glDeleteShader", "glDeleteShader", .void, [("_glfuncs", .ptr CType.void), ("shader", .base .GLuint)]⟩,
  ⟨"gl3_3core_glDeleteProgram", "glDeleteProgram", .void, [("_glfuncs", .ptr CType.void), ("program", .base .GLuint)]⟩,
  ⟨"gl3_3core_glCreateShader", "glCreateShader", .base .GLuint, [("_glfuncs", .ptr CType.void), ("gltype", .base .GLenum)]⟩,
  ⟨"gl3_3core_glCreateProgram", "glCreateProgram", .base .GLuint, [("_glfuncs", .ptr CType.void)]⟩,
  ⟨"gl3_3core_glCompileShader", "glCompileShader", .void, [("_glfuncs", .ptr CType.void), ("shader", .base .GLuint)]⟩,
  ⟨"gl3_3core_glBindAttribLocation", "glBindAttribLocation", .void, [("_glfuncs", .ptr CType.void), ("program", .base .GLuint), ("index", .base .GLuint), ("name", .constPtr (.base .GLchar))]⟩
]

def glDecls4 : List GLDecl := [
  ⟨"gl3_3core_glAttachShader", "glAttachShader", .void, [("_glfuncs", .ptr CType.void), ("program", .base .GLuint), ("shader", .base .GLuint)]⟩,
  ⟨"gl3_3core_glStencilMaskSeparate", "glStencilMaskSeparate", .void, [("_glfuncs", .ptr CType.void), ("face", .base .GLenum), ("mask", .base .GLuint)]⟩,
  ⟨"gl3_3core_glStencilFuncSeparate", "glStencilFuncSeparate", .void, [("_glfuncs", .ptr CType.void), ("face", .base .GLenum), ("glfunc", .base .GLenum), ("ref", .base .GLint), ("mask", .base .GLuint)]⟩,
  ⟨"gl3_3core_glStencilOpSeparate", "glStencilOpSeparate", .void, [("_glfuncs", .ptr CType.void), ("face", .base .GLenum), ("sfail", .base .GLenum), ("dpfail", .base .GLenum), ("dppass", .base .GLenum)]⟩,
  ⟨"gl3_3core_glDrawBuffers", "glDrawBuffers", .void, [("_glfuncs", .ptr CType.void), ("n", .base .GLsizei), ("bufs", .constPtr (.base .GLenum))]⟩,
  ⟨"gl3_3core_glBlendEquationSeparate", "glBlendEquationSeparate", .void, [("_glfuncs", .ptr CType.void), ("modeRGB", .base .GLenum), ("modeAlpha", .base .GLenum)]⟩,
  ⟨"gl3_3core_glUniformMatrix4x3fv", "glUniformMatrix4x3fv", .void, [("_glfuncs", .ptr CType.void), ("location", .base .GLint), ("count", .base .GLsizei), ("transpose", .base .GLboolean), ("value", .constPtr (.base .GLfloat))]⟩,
  ⟨"gl3_3core_glUniformMatrix3x4fv", "glUniformMatrix3x4fv", .void, [("_glfuncs", .ptr CType.void), ("location", .base .GLint), ("count", .base .GLsizei), ("transpose", .base .GLboolean), ("value", .constPtr (.base .GLfloat))]⟩,
  ⟨"gl3_3core_glUniformMatrix4x2fv", "glUniformMatrix4x2fv", .void, [("_glfuncs", .ptr CType.void), ("location", .base .GLint), ("count", .base .GLsizei), ("transpose", .base .GLboolean), ("value", .constPtr (.base .GLfloat))]⟩,
  ⟨"gl3_3core_glUniformMatrix2x4fv", "glUniformMatrix2x4fv", .void, [("_glfuncs", .ptr CType.void), ("location", .base .GLint), ("count", .base .GLsizei), ("transpose", .base .GLboolean), ("value", .constPtr (.base .GLfloat))]⟩,
  ⟨"gl3_3core_glUniformMatrix3x2fv", "glUniformMatrix3x2fv", .void, [("_glfuncs", .ptr CType.void), ("location", .base .GLint), ("count", .base .GLsizei), ("transpose", .base .GLboolean), ("value", .constPtr (.base .GLfloat))]⟩,
  ⟨"gl3_3core_glUniformMatrix2x3fv", "glUniformMatrix2x3fv", .void, [("_glfuncs", .ptr CType.void), ("location", .base .GLint), ("count", .base .GLsizei), ("transpose", .base .GLboolean), ("value", .constPtr (.base .GLfloat))]⟩,
  ⟨"gl3_3core_glIsVertexArray", "glIsVertexArray", .base .GLboolean, [("_glfuncs", .ptr CType.void), ("array", .base .GLuint)]⟩,
  ⟨"gl3_3core_glGenVertexArrays", "glGenVertexArrays", .void, [("_glfuncs", .ptr CType.void), ("n", .base .GLsizei), ("arrays", .ptr (.base .GLuint))]⟩,
  ⟨"gl3_3core_glDeleteVertexArrays", "glDeleteVertexArrays", .void, [("_glfuncs", .ptr CType.void), ("n", .base .GLsizei), ("arrays", .constPtr (.base .GLuint))]⟩,
  ⟨"gl3_3core_glBindVertexArray", "glBindVertexArray", .void, [("_glfuncs", .ptr CType.void), ("array", .base .GLuint)]⟩,
  ⟨"gl3_3core_glFlushMappedBufferRange", "glFlushMappedBufferRange", .void, [("_glfuncs", .ptr CType.void), ("target", .base .GLenum), ("offset", .base .GLintptr), ("length", .base .GLsizeiptr)]⟩,
  ⟨"gl3_3core_glFramebufferTextureLayer", "glFramebufferTextureLayer", .void, [("_glfuncs", .ptr CType.void), ("target", .base .GLenum), ("attachment", .base .GLenum), ("texture", .base .GLuint), ("level", .base .GLint), ("layer", .base .GLint)]⟩,
  ⟨"gl3_3core_glRenderbufferStorageMultisample", "glRenderbufferStorageMultisample", .void, [("_glfuncs", .ptr CType.void), ("target", .base .GLenum), ("samples", .base .GLsizei), ("internalFormat", .base .GLenum), ("width", .base .GLsizei), ("height", .base .GLsizei)]⟩,
  ⟨"gl3_3core_glBlitFramebuffer", "glBlitFramebuffer", .void, [("_glfuncs", .ptr CType.void), ("srcX0", .base .GLint), ("srcY0", .base .GLint), ("srcX1", .base .GLint), ("srcY1", .base .GLint), ("dstX0", .base .GLint), ("dstY0", .base .GLint), ("dstX1", .base .GLint), ("dstY1", .base .GLint), ("mask", .base .GLbitfield), ("filter", .base .GLenum)]⟩,
  ⟨"gl3_3core_glGenerateMipmap", "glGenerateMipmap", .void, [("_glfuncs", .ptr CType.void), ("target", .base .GLenum)]⟩,
  ⟨"gl3_3core_glGetFramebufferAttachmentParameteriv", "glGetFramebufferAttachmentParameteriv", .void, [("_glfuncs", .ptr CType.void), ("target", .base .GLenum), ("attachment", .base .GLenum), ("pname", .base .GLenum), ("params", .ptr (.base .GLint))]⟩,
  ⟨"gl3_3core_glFramebufferRenderbuffer", "glFramebufferRenderbuffer", .void, [("_glfuncs", .ptr CType.void), ("target", .base .GLenum), ("attachment", .base .GLenum), ("renderbuffertarget", .base .GLenum), ("renderbuffer", .base .GLuint)]⟩,
  ⟨"gl3_3core_glFramebufferTexture3D", "glFramebufferTexture3D", .void, [("_glfuncs", .ptr CType.void), ("target", .base .GLenum), ("attachment", .base .GLenum), ("textarget", .base .GLenum), ("texture", .base .GLuint), ("level", .base .GLint), ("zoffset", .base .GLint)]⟩,
  ⟨"gl3_3core_glFramebufferTexture2D", "glFramebufferTexture2D", .void, [("_glfuncs", .ptr CType.void), ("target", .base .GLenum), ("attachment", .base .GLenum), ("textarget", .base .GLenum), ("texture", .base .GLuint), ("level", .base .GLint)]⟩,
  ⟨"gl3_3core_glFramebufferTexture1D", "glFramebufferTexture1D", .void, [("_glfuncs", .ptr CType.void), ("target", .base .GLenum), ("attachment", .base .GLenum), ("textarget", .base .GLenum), ("texture", .base .GLuint), ("level", .base .GLint)]⟩,
  ⟨"gl3_3core_glCheckFramebufferStatus", "glCheckFramebufferStatus", .base .GLenum, [("_glfuncs", .ptr CType.void), ("target", .base .GLenum)]⟩,
  ⟨"gl3_3core_glGenFramebuffers", "glGenFramebuffers", .void, [("_glfuncs", .ptr CType.void), ("n", .base .GLsizei), ("framebuffers", .ptr (.base .GLuint))]⟩,
  ⟨"gl3_3core_glDeleteFramebuffers", "glDeleteFramebuffers", .void, [("_glfuncs", .ptr CType.void), ("n", .base .GLsizei), ("framebuffers", .constPtr (.base .GLuint))]⟩,
  ⟨"gl3_3core_glBindFramebuffer", "glBindFramebuffer", .void, [("_glfuncs", .ptr CType.void), ("target", .base .GLenum), ("framebuffer", .base .GLuint)]⟩,
  ⟨"gl3_3core_glIsFramebuffer", "glIsFramebuffer", .base .GLboolean, [("_glfuncs", .ptr CType.void), ("framebuffer", .base .GLuint)]⟩,
  ⟨"gl3_3core_glGetRenderbufferParameteriv", "glGetRenderbufferParameteriv", .void, [("_glfuncs", .ptr CType.void), ("target", .base .GLenum), ("pname", .base .GLenum), ("params", .ptr (.base .GLint))]⟩,
  ⟨"gl3_3core_glRenderbufferStorage", "glRenderbufferStorage", .void, [("_glfuncs", .ptr CType.void), ("target", .base .GLenum), ("internalFormat", .base .GLenum), ("width", .base .GLsizei), ("height", .base .GLsizei)]⟩,
  ⟨"gl3_3core_glGenRenderbuffers", "glGenRenderbuffers", .void, [("_glfuncs", .ptr CType.void), ("n", .base .GLsizei), ("renderbuffers", .ptr (.base .GLuint))]⟩,
  ⟨"gl3_3core_glDeleteRenderbuffers", "glDeleteRenderbuffers", .void, [("_glfuncs", .ptr CType.void), ("n", .base .GLsizei), ("renderbuffers", .constPtr (.base .GLuint))]⟩,
  ⟨"gl3_3core_glBindRenderbuffer", "glBindRenderbuffer", .void, [("_glfuncs", .ptr CType.void), ("target", .base .GLenum), ("renderbuffer", .base .GLuint)]⟩,
  ⟨"gl3_3core_glIsRenderbuffer", "glIsRenderbuffer", .base .GLboolean, [("_glfuncs", .ptr CType.void), ("renderbuffer", .base .GLuint)]⟩,
  ⟨"gl3_3core_glClearBufferfi", "glClearBufferfi", .void, [("_glfuncs", .ptr CType.void), ("buffer", .base .GLenum), ("drawbuffer", .base .GLint), ("depth", .base .GLfloat), ("stencil", .base .GLint)]⟩,
  ⟨"gl3_3core_glClearBufferfv", "glClearBufferfv", .void, [("_glfuncs", .ptr CType.void), ("buffer", .base .GLenum), ("drawbuffer", .base .GLint), ("value", .constPtr (.base .GLfloat))]⟩,
  ⟨"gl3_3core_glClearBufferuiv", "glClearBufferuiv", .void, [("_glfuncs", .ptr CType.void), ("buffer", .base .GLenum), ("drawbuffer", .base .GLint), ("value", .constPtr (.base .GLuint))]⟩,
  ⟨"gl3_3core_glClearBufferiv", "glClearBufferiv", .void, [("_glfuncs", .ptr CType.void), ("buffer", .base .GLenum), ("drawbuffer", .base .GLint), ("value", .constPtr (.base .GLint))]⟩,
  ⟨"gl3_3core_glGetTexParameterIuiv", "glGetTexParameterIuiv", .void, [("_glfuncs", .ptr CType.void), ("target", .base .GLenum), ("pname", .base .GLenum), ("params", .ptr (.base .GLuint))]⟩,
  ⟨"gl3_3core_glGetTexParameterIiv", "glGetTexParameterIiv", .void, [("_glfuncs", .ptr CType.void), ("target", .base .GLenum), ("pname", .base .GLenum), ("params", .ptr (.base .GLint))]⟩,
  ⟨"gl3_3core_glTexParameterIuiv", "glTexParameterIuiv", .void, [("_glfuncs", .ptr CType.void), ("target", .base .GLenum), ("pname", .base .GLenum), ("params", .constPtr (.base .GLuint))]⟩,
  ⟨"gl3_3core_glTexParameterIiv", "glTexParameterIiv", .void, [("_glfuncs", .ptr CType.void), ("target", .base .GLenum), ("pname", .base .GLenum), ("params", .constPtr (.base .GLint))]⟩,
  ⟨"gl3_3core_glUniform4uiv", "glUniform4uiv", .void, [("_glfuncs", .ptr CType.void), ("location", .base .GLint), ("count", .base .GLsizei), ("value", .constPtr (.base .GLuint))]⟩,
  ⟨"gl3_3core_glUniform3uiv", "glUniform3uiv", .void, [("_glfuncs", .ptr CType.void), ("location", .base .GLint), ("count", .base .GLsizei), ("value", .constPtr (.base .GLuint))]⟩,
  ⟨"gl3_3core_glUniform2uiv", "glUniform2uiv", .void, [("_glfuncs", .ptr CType.void), ("location", .base .GLint), ("count", .base .GLsizei), ("value", .constPtr (.base .GLuint))]⟩,
  ⟨"gl3_3core_glUniform1uiv", "glUniform1uiv", .void, [("_glfuncs", .ptr CType.void), ("location", .base .GLint), ("count", .base .GLsizei), ("value", .constPtr (.base .GLuint))]⟩,
  ⟨"gl3_3core_glUniform4ui", "glUniform4ui", .void, [("_glfuncs", .ptr CType.void), ("location", .base .GLint), ("v0", .base .GLuint), ("v1", .base .GLuint), ("v2", .base .GLuint), ("v3", .base .GLuint)]⟩
]

def glDecls5 : List GLDecl := [
  ⟨"gl3_3core_glUniform3ui", "glUniform3ui", .void, [("_glfuncs", .ptr CType.void), ("location", .base .GLint), ("v0", .base .GLuint), ("v1", .base .GLuint), ("v2", .base .GLuint)]⟩,
  ⟨"gl3_3core_glUniform2ui", "glUniform2ui", .void, [("_glfuncs", .ptr CType.void), ("location", .base .GLint), ("v0", .base .GLuint), ("v1", .base .GLuint)]⟩,
  ⟨"gl3_3core_glUniform1ui", "glUniform1ui", .void, [("_glfuncs", .ptr CType.void), ("location", .base .GLint), ("v0", .base .GLuint)]⟩,
  ⟨"gl3_3core_glGetFragDataLocation", "glGetFragDataLocation", .base .GLint, [("_glfuncs", .ptr CType.void), ("program", .base .GLuint), ("name", .constPtr (.base .GLchar))]⟩,
  ⟨"gl3_3core_glBindFragDataLocation", "glBindFragDataLocation", .void, [("_glfuncs", .ptr CType.void), ("program", .base .GLuint), ("color", .base .GLuint), ("name", .constPtr (.base .GLchar))]⟩,
  ⟨"gl3_3core_glGetUniformuiv", "glGetUniformuiv", .void, [("_glfuncs", .ptr CType.void), ("program", .base .GLuint), ("location", .base .GLint), ("params", .ptr (.base .GLuint))]⟩,
  ⟨"gl3_3core_glGetVertexAttribIuiv", "glGetVertexAttribIuiv", .void, [("_glfuncs", .ptr CType.void), ("index", .base .GLuint), ("pname", .base .GLenum), ("params", .ptr (.base .GLuint))]⟩,
  ⟨"gl3_3core_glGetVertexAttribIiv", "glGetVertexAttribIiv", .void, [("_glfuncs", .ptr CType.void), ("index", .base .GLuint), ("pname", .base .GLenum), ("params", .ptr (.base .GLint))]⟩,
  ⟨"gl3_3core_glVertexAttribIPointer", "glVertexAttribIPointer", .void, [("_glfuncs", .ptr CType.void), ("index", .base .GLuint), ("size", .base .GLint), ("gltype", .base .GLenum), ("stride", .base .GLsizei), ("pointer", .constPtr CType.void)]⟩,
  ⟨"gl3_3core_glEndConditionalRender", "glEndConditionalRender", .void, [("_glfuncs", .ptr CType.void)]⟩,
  ⟨"gl3_3core_glBeginConditionalRender", "glBeginConditionalRender", .void, [("_glfuncs", .ptr CType.void), ("id", .base .GLuint), ("mode", .base .GLenum)]⟩,
  ⟨"gl3_3core_glClampColor", "glClampColor", .void, [("_glfuncs", .ptr CType.void), ("target", .base .GLenum), ("clamp", .base .GLenum)]⟩,
  ⟨"gl3_3core_glGetTransformFeedbackVarying", "glGetTransformFeedbackVarying", .void, [("_glfuncs", .ptr CType.void), ("program", .base .GLuint), ("index", .base .GLuint), ("bufSize", .base .GLsizei), ("length", .ptr (.base .GLsizei)), ("size", .ptr (.base .GLsizei)), ("gltype", .ptr (.base .GLenum)), ("name", .ptr (.base .GLchar))]⟩,
  ⟨"gl3_3core_glBindBufferBase", "glBindBufferBase", .void, [("_glfuncs", .ptr CType.void), ("target", .base .GLenum), ("index", .base .GLuint), ("buffer", .base .GLuint)]⟩,
  ⟨"gl3_3core_glBindBufferRange", "glBindBufferRange", .void, [("_glfuncs", .ptr CType.void), ("target", .base .GLenum), ("index", .base .GLuint), ("buffer", .base .GLuint), ("offset", .base .GLintptr), ("size", .base .GLsizeiptr)]⟩,
  ⟨"gl3_3core_glEndTransformFeedback", "glEndTransformFeedback", .void, [("_glfuncs", .ptr CType.void)]⟩,
  ⟨"gl3_3core_glBeginTransformFeedback", "glBeginTransformFeedback", .void, [("_glfuncs", .ptr CType.void), ("primitiveMode", .base .GLenum)]⟩,
  ⟨"gl3_3core_glIsEnabledi", "glIsEnabledi", .base .GLboolean, [("_glfuncs", .ptr CType.void), ("target", .base .GLenum), ("index", .base .GLuint)]⟩,
  ⟨"gl3_3core_glDisablei", "glDisablei", .void, [("_glfuncs", .ptr CType.void), ("target", .base .GLenum), ("index", .base .GLuint)]⟩,
  ⟨"gl3_3core_glEnablei", "glEnablei", .void, [("_glfuncs", .ptr CType.void), ("target", .base .GLenum), ("index", .base .GLuint)]⟩,
  ⟨"gl3_3core_glGetIntegeri_v", "glGetIntegeri_v", .void, [("_glfuncs", .ptr CType.void), ("target", .base .GLenum), ("index", .base .GLuint), ("data", .ptr (.base .GLint))]⟩,
  ⟨"gl3_3core_glGetBooleani_v", "glGetBooleani_v", .void, [("_glfuncs", .ptr CType.void), ("target", .base .GLenum), ("index", .base .GLuint), ("data", .ptr (.base .GLboolean))]⟩,
  ⟨"gl3_3core_glColorMaski", "glColorMaski", .void, [("_glfuncs", .ptr CType.void), ("index", .base .GLuint), ("r", .base .GLboolean), ("g", .base .GLboolean), ("b", .base .GLboolean), ("a", .base .GLboolean)]⟩,
  ⟨"gl3_3core_glCopyBufferSubData", "glCopyBufferSubData", .void, [("_glfuncs", .ptr CType.void), ("readTarget", .base .GLenum), ("writeTarget", .base .GLenum), ("readOffset", .base .GLintptr), ("writeOffset", .base .GLintptr), ("size", .base .GLsizeiptr)]⟩,
  ⟨"gl3_3core_glUniformBlockBinding", "glUniformBlockBinding", .void, [("_glfuncs", .ptr CType.void), ("program", .base .GLuint), ("v0", .base .GLuint), ("v1", .base .GLuint)]⟩,
  ⟨"gl3_3core_glGetActiveUniformBlockName", "glGetActiveUniformBlockName", .void, [("_glfuncs", .ptr CType.void), ("program", .base .GLuint), ("uniformBlockIndex", .base .GLuint), ("bufSize", .base .GLsizei), ("length", .ptr (.base .GLsizei)), ("uniformBlockName", .ptr (.base .GLchar))]⟩,
  ⟨"gl3_3core_glGetActiveUniformBlockiv", "glGetActiveUniformBlockiv", .void, [("_glfuncs", .ptr CType.void), ("program", .base .GLuint), ("uniformBlockIndex", .base .GLuint), ("pname", .base .GLenum), ("params", .ptr (.base .GLint))]⟩,
  ⟨"gl3_3core_glGetUniformBlockIndex", "glGetUniformBlockIndex", .base .GLuint, [("_glfuncs", .ptr CType.void), ("program", .base .GLuint), ("uniformBlockName", .constPtr (.base .GLchar))]⟩,
  ⟨"gl3_3core_glGetActiveUniformName", "glGetActiveUniformName", .void, [("_glfuncs", .ptr CType.void), ("program", .base .GLuint), ("uniformIndex", .base .GLuint), ("bufSize", .base .GLsizei), ("length", .ptr (.base .GLsizei)), ("uniformName", .ptr (.base .GLchar))]⟩,
  ⟨"gl3_3core_glGetActiveUniformsiv", "glGetActiveUniformsiv", .void, [("_glfuncs", .ptr CType.void), ("program", .base .GLuint), ("uniformCount", .base .GLsizei), ("uniformIndices", .constPtr (.base .GLuint)), ("pname", .base .GLenum), ("params", .ptr (.base .GLint))]⟩,
  ⟨"gl3_3core_glPrimitiveRestartIndex", "glPrimitiveRestartIndex", .void, [("_glfuncs", .ptr CType.void), ("index", .base .GLuint)]⟩,
  ⟨"gl3_3core_glTexBuffer", "glTexBuffer", .void, [("_glfuncs", .ptr CType.void), ("target", .base .GLenum), ("internalFormat", .base .GLenum), ("buffer", .base .GLuint)]⟩,
  ⟨"gl3_3core_glDrawElementsInstanced", "glDrawElementsInstanced", .void, [("_glfuncs", .ptr CType.void), ("mode", .base .GLenum), ("count", .base .GLsizei), ("gltype", .base .GLenum), ("indices", .constPtr CType.void), ("instancecount", .base .GLsizei)]⟩,
  ⟨"gl3_3core_glDrawArraysInstanced", "glDrawArraysInstanced", .void, [("_glfuncs", .ptr CType.void), ("mode", .base .GLenum), ("first", .base .GLint), ("count", .base .GLsizei), ("instancecount", .base .GLsizei)]⟩,
  ⟨"gl3_3core_glSampleMaski", "glSampleMaski", .void, [("_glfuncs", .ptr CType.void), ("index", .base .GLuint), ("mask", .base .GLbitfield)]⟩,
  ⟨"gl3_3core_glGetMultisamplefv", "glGetMultisamplefv", .void, [("_glfuncs", .ptr CType.void), ("pname", .base .GLenum), ("index", .base .GLuint), ("val", .ptr (.base .GLfloat))]⟩,
  ⟨"gl3_3core_glTexImage3DMultisample", "glTexImage3DMultisample", .void, [("_glfuncs", .ptr CType.void), ("target", .base .GLenum), ("samples", .base .GLsizei), ("internalFormat", .base .GLint), ("width", .base .GLsizei), ("height", .base .GLsizei), ("depth", .base .GLsizei), ("fixedsamplelocations", .base .GLboolean)]⟩,
  ⟨"gl3_3core_glTexImage2DMultisample", "glTexImage2DMultisample", .void, [("_glfuncs", .ptr CType.void), ("target", .base .GLenum), ("samples", .base .GLsizei), ("internalFormat", .base .GLint), ("width", .base .GLsizei), ("height", .base .GLsizei), ("fixedsamplelocations", .base .GLboolean)]⟩,
  ⟨"gl3_3core_glGetSynciv", "glGetSynciv", .void, [("_glfuncs", .ptr CType.void), ("sync", .base .GLsync), ("pname", .base .GLenum), ("bufSize", .base .GLsizei), ("length", .ptr (.base .GLsizei)), ("values", .ptr (.base .GLint))]⟩,
  ⟨"gl3_3core_glGetInteger64v", "glGetInteger64v", .void, [("_glfuncs", .ptr CType.void), ("pname", .base .GLenum), ("params", .ptr (.base .GLint64))]⟩,
  ⟨"gl3_3core_glWaitSync", "glWaitSync", .void, [("_glfuncs", .ptr CType.void), ("sync", .base .GLsync), ("flags", .base .GLbitfield), ("timeout", .base .GLuint64)]⟩,
  ⟨"gl3_3core_glClientWaitSync", "glClientWaitSync", .base .GLenum, [("_glfuncs", .ptr CType.void), ("sync", .base .GLsync), ("flags", .base .GLbitfield), ("timeout", .base .GLuint64)]⟩,
  ⟨"gl3_3core_glDeleteSync", "glDeleteSync", .void, [("_glfuncs", .ptr CType.void), ("sync", .base .GLsync)]⟩,
  ⟨"gl3_3core_glIsSync", "glIsSync", .base .GLboolean, [("_glfuncs", .ptr CType.void), ("sync", .base .GLsync)]⟩,
  ⟨"gl3_3core_glFenceSync", "glFenceSync", .base .GLsync, [("_glfuncs", .ptr CType.void), ("condition", .base .GLenum), ("flags", .base .GLbitfield)]⟩,
  ⟨"gl3_3core_glProvokingVertex", "glProvokingVertex", .void, [("_glfuncs", .ptr CType.void), ("mode", .base .GLenum)]⟩,
  ⟨"gl3_3core_glDrawElementsInstancedBaseVertex", "glDrawElementsInstancedBaseVertex", .void, [("_glfuncs", .ptr CType.void), ("mode", .base .GLenum), ("count", .base .GLsizei), ("gltype", .base .GLenum), ("indices", .constPtr CType.void), ("instancecount", .base .GLsizei), ("basevertex", .base .GLint)]⟩,
  ⟨"gl3_3core_glDrawRangeElementsBaseVertex", "glDrawRangeElementsBaseVertex", .void, [("_glfuncs", .ptr CType.void), ("mode", .base .GLenum), ("start", .base .GLuint), ("end", .base .GLuint), ("count", .base .GLsizei), ("gltype", .base .GLenum), ("indices", .constPtr CType.void), ("basevertex", .base .GLint)]⟩,
  ⟨"gl3_3core_glDrawElementsBaseVertex", "glDrawElementsBaseVertex", .void, [("_glfuncs", .ptr CType.void), ("mode", .base .GLenum), ("count", .base .GLsizei), ("gltype", .base .GLenum), ("indices", .constPtr CType.void), ("basevertex", .base .GLint)]⟩,
  ⟨"gl3_3core_glFramebufferTexture", "glFramebufferTexture", .void, [("_glfuncs", .ptr CType.void), ("target", .base .GLenum), ("attachment", .base .GLenum), ("texture", .base .GLuint), ("level", .base .GLint)]⟩
]

def glDecls6 : List GLDecl := [
  ⟨"gl3_3core_glGetBufferParameteri64v", "glGetBufferParameteri64v", .void, [("_glfuncs", .ptr CType.void), ("target", .base .GLenum), ("pname", .base .GLenum), ("params", .ptr (.base .GLint64))]⟩,
  ⟨"gl3_3core_glGetInteger64i_v", "glGetInteger64i_v", .void, [("_glfuncs", .ptr CType.void), ("target", .base .GLenum), ("index", .base .GLuint), ("data", .ptr (.base .GLint64))]⟩,
  ⟨"gl3_3core_glVertexAttribP4uiv", "glVertexAttribP4uiv", .void, [("_glfuncs", .ptr CType.void), ("index", .base .GLuint), ("gltype", .base .GLenum), ("normalized", .base .GLboolean), ("value", .constPtr (.base .GLuint))]⟩,
  ⟨"gl3_3core_glVertexAttribP4ui", "glVertexAttribP4ui", .void, [("_glfuncs", .ptr CType.void), ("index", .base .GLuint), ("gltype", .base .GLenum), ("normalized", .base .GLboolean), ("value", .base .GLuint)]⟩,
  ⟨"gl3_3core_glVertexAttribP3uiv", "glVertexAttribP3uiv", .void, [("_glfuncs", .ptr CType.void), ("index", .base .GLuint), ("gltype", .base .GLenum), ("normalized", .base .GLboolean), ("value", .constPtr (.base .GLuint))]⟩,
  ⟨"gl3_3core_glVertexAttribP3ui", "glVertexAttribP3ui", .void, [("_glfuncs", .ptr CType.void), ("index", .base .GLuint), ("gltype", .base .GLenum), ("normalized", .base .GLboolean), ("value", .base .GLuint)]⟩,
  ⟨"gl3_3core_glVertexAttribP2uiv", "glVertexAttribP2uiv", .void, [("_glfuncs", .ptr CType.void), ("index", .base .GLuint), ("gltype", .base .GLenum), ("normalized", .base .GLboolean), ("value", .constPtr (.base .GLuint))]⟩,
  ⟨"gl3_3core_glVertexAttribP2ui", "glVertexAttribP2ui", .void, [("_glfuncs", .ptr CType.void), ("index", .base .GLuint), ("gltype", .base .GLenum), ("normalized", .base .GLboolean), ("value", .base .GLuint)]⟩,
  ⟨"gl3_3core_glVertexAttribP1uiv", "glVertexAttribP1uiv", .void, [("_glfuncs", .ptr CType.void), ("index", .base .GLuint), ("gltype", .base .GLenum), ("normalized", .base .GLboolean), ("value", .constPtr (.base .GLuint))]⟩,
  ⟨"gl3_3core_glVertexAttribP1ui", "glVertexAttribP1ui", .void, [("_glfuncs", .ptr CType.void), ("index", .base .GLuint), ("gltype", .base .GLenum), ("normalized", .base .GLboolean), ("value", .base .GLuint)]⟩,
  ⟨"gl3_3core_glSecondaryColorP3uiv", "glSecondaryColorP3uiv", .void, [("_glfuncs", .ptr CType.void), ("gltype", .base .GLenum), ("color", .constPtr (.base .GLuint))]⟩,
  ⟨"gl3_3core_glSecondaryColorP3ui", "glSecondaryColorP3ui", .void, [("_glfuncs", .ptr CType.void), ("gltype", .base .GLenum), ("color", .base .GLuint)]⟩,
  ⟨"gl3_3core_glColorP4uiv", "glColorP4uiv", .void, [("_glfuncs", .ptr CType.void), ("gltype", .base .GLenum), ("color", .constPtr (.base .GLuint))]⟩,
  ⟨"gl3_3core_glColorP4ui", "glColorP4ui", .void, [("_glfuncs", .ptr CType.void), ("gltype", .base .GLenum), ("color", .base .GLuint)]⟩,
  ⟨"gl3_3core_glColorP3uiv", "glColorP3uiv", .void, [("_glfuncs", .ptr CType.void), ("gltype", .base .GLenum), ("color", .constPtr (.base .GLuint))]⟩,
  ⟨"gl3_3core_glColorP3ui", "glColorP3ui", .void, [("_glfuncs", .ptr CType.void), ("gltype", .base .GLenum), ("color", .base .GLuint)]⟩,
  ⟨"gl3_3core_glNormalP3uiv", "glNormalP3uiv", .void, [("_glfuncs", .ptr CType.void), ("gltype", .base .GLenum), ("coords", .constPtr (.base .GLuint))]⟩,
  ⟨"gl3_3core_glNormalP3ui", "glNormalP3ui", .void, [("_glfuncs", .ptr CType.void), ("gltype", .base .GLenum), ("coords", .base .GLuint)]⟩,
  ⟨"gl3_3core_glMultiTexCoordP4uiv", "glMultiTexCoordP4uiv", .void, [("_glfuncs", .ptr CType.void), ("texture", .base .GLenum), ("gltype", .base .GLenum), ("coords", .constPtr (.base .GLuint))]⟩,
  ⟨"gl3_3core_glMultiTexCoordP4ui", "glMultiTexCoordP4ui", .void, [("_glfuncs", .ptr CType.void), ("texture", .base .GLenum), ("gltype", .base .GLenum), ("coords", .base .GLuint)]⟩,
  ⟨"gl3_3core_glMultiTexCoordP3uiv", "glMultiTexCoordP3uiv", .void, [("_glfuncs", .ptr CType.void), ("texture", .base .GLenum), ("gltype", .base .GLenum), ("coords", .constPtr (.base .GLuint))]⟩,
  ⟨"gl3_3core_glMultiTexCoordP3ui", "glMultiTexCoordP3ui", .void, [("_glfuncs", .ptr CType.void), ("texture", .base .GLenum), ("gltype", .base .GLenum), ("coords", .base .GLuint)]⟩,
  ⟨"gl3_3core_glMultiTexCoordP2uiv", "glMultiTexCoordP2uiv", .void, [("_glfuncs", .ptr CType.void), ("texture", .base .GLenum), ("gltype", .base .GLenum), ("coords", .constPtr (.base .GLuint))]⟩,
  ⟨"gl3_3core_glMultiTexCoordP2ui", "glMultiTexCoordP2ui", .void, [("_glfuncs", .ptr CType.void), ("texture", .base .GLenum), ("gltype", .base .GLenum), ("coords", .base .GLuint)]⟩,
  ⟨"gl3_3core_glMultiTexCoordP1uiv", "glMultiTexCoordP1uiv", .void, [("_glfuncs", .ptr CType.void), ("texture", .base .GLenum), ("gltype", .base .GLenum), ("coords", .constPtr (.base .GLuint))]⟩,
  ⟨"gl3_3core_glMultiTexCoordP1ui", "glMultiTexCoordP1ui", .void, [("_glfuncs", .ptr CType.void), ("texture", .base .GLenum), ("gltype", .base .GLenum), ("coords", .base .GLuint)]⟩,
  ⟨"gl3_3core_glTexCoordP4uiv", "glTexCoordP4uiv", .void, [("_glfuncs", .ptr CType.void), ("gltype", .base .GLenum), ("coords", .constPtr (.base .GLuint))]⟩,
  ⟨"gl3_3core_glTexCoordP4ui", "glTexCoordP4ui", .void, [("_glfuncs", .ptr CType.void), ("gltype", .base .GLenum), ("coords", .base .GLuint)]⟩,
  ⟨"gl3_3core_glTexCoordP3uiv", "glTexCoordP3uiv", .void, [("_glfuncs", .ptr CType.void), ("gltype", .base .GLenum), ("coords", .constPtr (.base .GLuint))]⟩,
  ⟨"gl3_3core_glTexCoordP3ui", "glTexCoordP3ui", .void, [("_glfuncs", .ptr CType.void), ("gltype", .base .GLenum), ("coords", .base .GLuint)]⟩,
  ⟨"gl3_3core_glTexCoordP2uiv", "glTexCoordP2uiv", .void, [("_glfuncs", .ptr CType.void), ("gltype", .base .GLenum), ("coords", .constPtr (.base .GLuint))]⟩,
  ⟨"gl3_3core_glTexCoordP2ui", "glTexCoordP2ui", .void, [("_glfuncs", .ptr CType.void), ("gltype", .base .GLenum), ("coords", .base .GLuint)]⟩,
  ⟨"gl3_3core_glTexCoordP1uiv", "glTexCoordP1uiv", .void, [("_glfuncs", .ptr CType.void), ("gltype", .base .GLenum), ("coords", .constPtr (.base .GLuint))]⟩,
  ⟨"gl3_3core_glTexCoordP1ui", "glTexCoordP1ui", .void, [("_glfuncs", .ptr CType.void), ("gltype", .base .GLenum), ("coords", .base .GLuint)]⟩,
  ⟨"gl3_3core_glVertexP4uiv", "glVertexP4uiv", .void, [("_glfuncs", .ptr CType.void), ("gltype", .base .GLenum), ("value", .constPtr (.base .GLuint))]⟩,
  ⟨"gl3_3core_glVertexP4ui", "glVertexP4ui", .void, [("_glfuncs", .ptr CType.void), ("gltype", .base .GLenum), ("value", .base .GLuint)]⟩,
  ⟨"gl3_3core_glVertexP3uiv", "glVertexP3uiv", .void, [("_glfuncs", .ptr CType.void), ("gltype", .base .GLenum), ("value", .constPtr (.base .GLuint))]⟩,
  ⟨"gl3_3core_glVertexP3ui", "glVertexP3ui", .void, [("_glfuncs", .ptr CType.void), ("gltype", .base .GLenum), ("value", .base .GLuint)]⟩,
  ⟨"gl3_3core_glVertexP2uiv", "glVertexP2uiv", .void, [("_glfuncs", .ptr CType.void), ("gltype", .base .GLenum), ("value", .constPtr (.base .GLuint))]⟩,
  ⟨"gl3_3core_glVertexP2ui", "glVertexP2ui", .void, [("_glfuncs", .ptr CType.void), ("gltype", .base .GLenum), ("value", .base .GLuint)]⟩,
  ⟨"gl3_3core_glGetQueryObjectui64v", "glGetQueryObjectui64v", .void, [("_glfuncs", .ptr CType.void), ("id", .base .GLuint), ("pname", .base .GLenum), ("params", .ptr (.base .GLuint64))]⟩,
  ⟨"gl3_3core_glGetQueryObjecti64v", "glGetQueryObjecti64v", .void, [("_glfuncs", .ptr CType.void), ("id", .base .GLuint), ("pname", .base .GLenum), ("params", .ptr (.base .GLint64))]⟩,
  ⟨"gl3_3core_glQueryCounter", "glQueryCounter", .void, [("_glfuncs", .ptr CType.void), ("id", .base .GLuint), ("target", .base .GLenum)]⟩,
  ⟨"gl3_3core_glGetSamplerParameterIuiv", "glGetSamplerParameterIuiv", .void, [("_glfuncs", .ptr CType.void), ("sampler", .base .GLuint), ("pname", .base .GLenum), ("params", .ptr (.base .GLuint))]⟩,
  ⟨"gl3_3core_glGetSamplerParameterfv", "glGetSamplerParameterfv", .void, [("_glfuncs", .ptr CType.void), ("sampler", .base .GLuint), ("pname", .base .GLenum), ("params", .ptr (.base .GLfloat))]⟩,
  ⟨"gl3_3core_glGetSamplerParameterIiv", "glGetSamplerParameterIiv", .void, [("_glfuncs", .ptr CType.void), ("sampler", .base .GLuint), ("pname", .base .GLenum), ("params", .ptr (.base .GLint))]⟩,
  ⟨"gl3_3core_glGetSamplerParameteriv", "glGetSamplerParameteriv", .void, [("_glfuncs", .ptr CType.void), ("sampler", .base .GLuint), ("pname", .base .GLenum), ("params", .ptr (.base .GLint))]⟩,
  ⟨"gl3_3core_glSamplerParameterIuiv", "glSamplerParameterIuiv", .void, [("_glfuncs", .ptr CType.void), ("sampler", .base .GLuint), ("pname", .base .GLenum), ("param", .constPtr (.base .GLuint))]⟩,
  ⟨"gl3_3core_glSamplerParameterIiv", "glSamplerParameterIiv", .void, [("_glfuncs", .ptr CType.void), ("sampler", .base .GLuint), ("pname", .base .GLenum), ("param", .constPtr (.base .GLint))]⟩,
  ⟨"gl3_3core_glSamplerParameterfv", "glSamplerParameterfv", .void, [("_glfuncs", .ptr CType.void), ("sampler", .base .GLuint), ("pname", .base .GLenum), ("param", .constPtr (.base .GLfloat))]⟩
]

def glDecls7 : List GLDecl := [
  ⟨"gl3_3core_glSamplerParameterf", "glSamplerParameterf", .void, [("_glfuncs", .ptr CType.void), ("sampler", .base .GLuint), ("pname", .base .GLenum), ("param", .base .GLfloat)]⟩,
  ⟨"gl3_3core_glSamplerParameteriv", "glSamplerParameteriv", .void, [("_glfuncs", .ptr CType.void), ("sampler", .base .GLuint), ("pname", .base .GLenum), ("param", .constPtr (.base .GLint))]⟩,
  ⟨"gl3_3core_glSamplerParameteri", "glSamplerParameteri", .void, [("_glfuncs", .ptr CType.void), ("sampler", .base .GLuint), ("pname", .base .GLenum), ("param", .base .GLint)]⟩,
  ⟨"gl3_3core_glBindSampler", "glBindSampler", .void, [("_glfuncs", .ptr CType.void), ("unit", .base .GLuint), ("sampler", .base .GLuint)]⟩,
  ⟨"gl3_3core_glIsSampler", "glIsSampler", .base .GLboolean, [("_glfuncs", .ptr CType.void), ("sampler", .base .GLuint)]⟩,
  ⟨"gl3_3core_glDeleteSamplers", "glDeleteSamplers", .void, [("_glfuncs", .ptr CType.void), ("count", .base .GLsizei), ("samplers", .constPtr (.base .GLuint))]⟩,
  ⟨"gl3_3core_glGenSamplers", "glGenSamplers", .void, [("_glfuncs", .ptr CType.void), ("count", .base .GLsizei), ("samplers", .ptr (.base .GLuint))]⟩,
  ⟨"gl3_3core_glGetFragDataIndex", "glGetFragDataIndex", .base .GLint, [("_glfuncs", .ptr CType.void), ("program", .base .GLuint), ("name", .constPtr (.base .GLchar))]⟩,
  ⟨"gl3_3core_glBindFragDataLocationIndexed", "glBindFragDataLocationIndexed", .void, [("_glfuncs", .ptr CType.void), ("program", .base .GLuint), ("colorNumber", .base .GLuint), ("index", .base .GLuint), ("name", .constPtr (.base .GLchar))]⟩,
  ⟨"gl3_3core_glVertexAttribDivisor", "glVertexAttribDivisor", .void, [("_glfuncs", .ptr CType.void), ("index", .base .GLuint), ("divisor", .base .GLuint)]⟩
]

def glDecls : List GLDecl :=
  glDecls1 ++ glDecls2 ++ glDecls3 ++ glDecls4 ++ glDecls5 ++ glDecls6 ++ glDecls7

/-- Number of entry points declared by the header. -/
def numEntryPoints : Nat := glDecls.length

/-- Standard entry-point names, in declaration order. -/
def epNames : List String := glDecls.map GLDecl.glName

/-- The i-th standard entry-point name. -/
def epName (i : Nat) : String := epNames.getD i ""

/-- Byte width of each GL scalar type, as fixed by the typedef block of
`funcs.h` (lines 7–29) together with the C meanings of the underlying
types: `int`/`unsigned int` are the 4-byte types the header's comments
state, `int64_t`/`uint64_t` are exact 64-bit, and `ptrdiff_t` (hence
`GLintptr`, `GLsizeiptr`, `GLintptrARB`, `GLsizeiptrARB`) and the pointer
typedef `GLsync` have the platform's pointer width `ptrBytes`. -/
def sizeofScalar (ptrBytes : Nat) : GLScalar → Nat
  | .GLenum => 4
  | .GLboolean => 1
  | .GLbitfield => 4
  | .GLchar => 1
  | .GLbyte => 1
  | .GLshort => 2
  | .GLint => 4
  | .GLubyte => 1
  | .GLushort => 2
  | .GLuint => 4
  | .GLsizei => 4
  | .GLfloat => 4
  | .GLclampf => 4
  | .GLdouble => 8
  | .GLclampd => 8
  | .GLint64 => 8
  | .GLuint64 => 8
  | .GLintptr => ptrBytes
  | .GLsizeiptr => ptrBytes
  | .GLintptrARB => ptrBytes
  | .GLsizeiptrARB => ptrBytes
  | .GLsync => ptrBytes

/-- Signedness of each GL scalar type, from the same typedef block
(`signed char`, `short`, `int`, `int64_t`, `ptrdiff_t` are signed;
the `unsigned`/`uint64_t` typedefs are not; the floating and pointer
typedefs are recorded as signed/unsigned per their C underlying type). -/
def scalarSigned : GLScalar → Bool
  | .GLenum => false
  | .GLboolean => false
  | .GLbitfield => false
  | .GLchar => true
  | .GLbyte => true
  | .GLshort => true
  | .GLint => true
  | .GLubyte => false
  | .GLushort => false
  | .GLuint => false
  | .GLsizei => true
  | .GLfloat => true
  | .GLclampf => true
  | .GLdouble => true
  | .GLclampd => true
  | .GLint64 => true
  | .GLuint64 => false
  | .GLintptr => true
  | .GLsizeiptr => true
  | .GLintptrARB => true
  | .GLsizeiptrARB => true
  | .GLsync => false

/-- The scalar typedefs declared by the header's typedef block, in source
order (lines 7–28; `GLsync` on line 29). -/
def declaredTypedefs : List GLScalar :=
  [.GLenum, .GLboolean, .GLbitfield, .GLchar, .GLbyte, .GLshort, .GLint,
   .GLubyte, .GLushort, .GLuint, .GLsizei, .GLfloat, .GLclampf, .GLdouble,
   .GLclampd, .GLint64, .GLuint64, .GLintptr, .GLsizeiptr, .GLintptrARB,
   .GLsizeiptrARB, .GLsync]

/-- All scalar typedefs mentioned inside a C type. -/
def scalarsOfCType : CType → List GLScalar
  | .void => []
  | .base s => [s]
  | .ptr t => scalarsOfCType t
  | .constPtr t => scalarsOfCType t

/-- All scalar typedefs mentioned by a declaration (return then params). -/
def scalarsOfDecl (d : GLDecl) : List GLScalar :=
  scalarsOfCType d.ret ++ (d.params.map (fun p => scalarsOfCType p.2)).flatten

/-!
## Modelled table/resolution semantics

The implementation of the function table, its resolution and the trampoline
bodies is external to `funcs.h` (only the C surface is declared there).
The definitions below are modelled from the spec (§3, §4.1, §4.2, §7).
-/

/-- Modelled from the spec (§7): the error taxonomy of the layer.
`MissingEntryPoint` carries the entry point's name; `UnresolvedEntryPoint`
identifies the entry point and the table (by its owning context). -/
inductive GLError where
  | MissingEntryPoint (name : String) : GLError
  | UnresolvedEntryPoint (name : String) (ctx : Nat) : GLError
deriving DecidableEq

/-- Modelled from the spec (§3): the per-context function table.  One slot
per entry point in declaration order; a slot holds the resolved native
address, with `0` (null) the unresolved sentinel.  `ctx` is the identifier
correlating the table to its owning context and `tag` the profile/version
tag. -/
structure Table where
  ctx : Nat
  tag : String
  slots : List Nat
deriving DecidableEq

/-- Modelled from the spec (§4.1 `create`): allocate a zero-initialized
table tagged to a context; no resolution is performed (the operation does
not even receive an address-lookup function). -/
def create (c : Nat) : Table :=
  ⟨c, "gl3.3core", List.replicate numEntryPoints 0⟩

/-- Modelled from the spec (§4.1 `get`): return the stored address, or fail
with `UnresolvedEntryPoint` when the slot holds the null sentinel. -/
def get (t : Table) (i : Nat) : Except GLError Nat :=
  if t.slots.getD i 0 = 0
  then .error (.UnresolvedEntryPoint (epName i) t.ctx)
  else .ok (t.slots.getD i 0)

/-- Modelled from the spec (§4.1 `resolve_all`, §9): query the injected
address-lookup function for every entry point of the profile; fail with
`MissingEntryPoint` at the first mandatory entry point that resolves to
null, else store all looked-up addresses (optional entry points the driver
lacks stay at the null sentinel).  Which entry points are core-mandatory
versus optional-extension is not observable in the source and is supplied
externally as the predicate `mand`. -/
def resolveAll (mand : Nat → Bool) (t : Table) (lookup : String → Nat) :
    Except GLError Table :=
  match (List.range numEntryPoints).find?
      (fun i => mand i && (lookup (epName i) == 0)) with
  | some i => .error (.MissingEntryPoint (epName i))
  | none => .ok { t with slots := epNames.map lookup }

/-- Modelled from the spec (§4.2): the trampoline for entry point `i`.
`env` gives, per native address, the native function's behavior as a map
from the call's arguments `a` and the ambient memory `m` (covering data
reachable through pointer parameters) to the updated memory and the return
value.  The trampoline looks the slot up via `get`; on failure it performs
no native call (table and memory returned untouched), on success it
forwards the arguments verbatim and passes back memory writes and return
value unchanged. -/
def callE {α β μ : Type} (env : Nat → α → μ → μ × β) (t : Table) (i : Nat)
    (a : α) (m : μ) : Table × μ × Except GLError β :=
  match get t i with
  | .error e => (t, m, .error e)
  | .ok addr =>
    let r := env addr a m
    (t, r.1, .ok r.2)

/-- Modelled from the spec (§3, §8): a world of per-context tables, used to
state independence of tables owned by distinct contexts. -/
def World : Type := Nat → Table

/-- Replace the table owned by context `c`. -/
def setTable (w : World) (c : Nat) (t : Table) : World :=
  fun c' => if c' = c then t else w c'

/-- Run `resolveAll` on the table of context `c`, keeping the old table on
failure (resolution errors are reported, not destructive). -/
def resolveAllW (mand : Nat → Bool) (w : World) (c : Nat)
    (lookup : String → Nat) : World :=
  setTable w c
    (match resolveAll mand (w c) lookup with
     | .ok t => t
     | .error _ => w c)

/-- Overwrite context `c`'s table with arbitrary (corrupted) contents. -/
def corruptW (w : World) (c : Nat) (t : Table) : World :=
  setTable w c t

/-- Modelled from the spec (§4.1 `destroy`): release context `c`'s table. -/
def destroyW (w : World) (c : Nat) : World :=
  setTable w c ⟨0, "", []⟩

/-!
Concrete instruments used to evaluate the model on closed inputs:
a counting address-lookup stub, a native stub writing a sentinel array
through its output pointer, and small concrete tables and worlds.
-/

/-- A counting native stub: memory is an invocation counter that every
native call increments. -/
def countStub : Nat → Unit → Nat → Nat × Unit := fun _ _ m => (m + 1, ())

/-- A native stub for `glGetIntegerv` that writes the sentinel array
`[11, 22, 33]` through its output pointer (the memory). -/
def sentinelStub : Nat → Int → List Int → List Int × Unit :=
  fun _ _ _ => ([11, 22, 33], ())

/-- A table whose `glGetIntegerv` slot (index 8) is resolved to 42. -/
def tblGetIntegerv : Table :=
  ⟨1, "gl3.3core", (List.replicate numEntryPoints 0).set 8 42⟩

/-- Every entry point mandatory. -/
def mandAll : Nat → Bool := fun _ => true

/-- An address-lookup stub resolving every name to address 1. -/
def lookupOne : String → Nat := fun _ => 1

/-- The fully resolved table `resolveAll` produces from `lookupOne`. -/
def tblOnes : Table := ⟨3, "gl3.3core", List.replicate numEntryPoints 1⟩

/-- Entry point 3 (`glGetTexLevelParameteriv`) treated as an optional
extension, all others mandatory. -/
def mandOpt : Nat → Bool := fun i => i != 3

/-- An address-lookup stub whose driver lacks entry point 3. -/
def lookupOpt : String → Nat :=
  fun n => if n == "glGetTexLevelParameteriv" then 0 else 7

/-- The table `resolveAll` produces from `lookupOpt`: slot 3 stays at the
null sentinel, every other slot resolves to 7. -/
def tblOpt : Table := ⟨1, "gl3.3core", epNames.map lookupOpt⟩

/-- A world giving every context a fresh table. -/
def worldInit : World := fun c => create c

/-- Arbitrary corrupted table contents. -/
def tblBad : Table := ⟨9, "bad", [1]⟩

/-- C3: every exposed trampoline declaration has the shape
`call_E(table, a1..an) -> R`: its first parameter is the untyped table
handle `void *_glfuncs`, placed before the entry point's own arguments. -/
theorem trampoline_decl_shape :
    glDecls.all
      (fun d => decide (d.params.head? = some ("_glfuncs", CType.ptr .void)))
      = true := by
  decide

/-- C6: for every entry point in the profile, the exposed trampoline's C
name is derived deterministically from the entry point's standard name by
prepending the fixed profile/version tag `gl3_3core_`, with no exception
across the declared set. -/
theorem trampoline_name_derivation :
    glDecls.all
      (fun d => decide (d.cname = "gl3_3core_" ++ d.glName)) = true := by
  decide

/-- C7: the declarations use the native GL types with their exact widths:
every scalar type mentioned by any trampoline declaration is one of the
header's typedefs; the pointer/size typedefs `GLintptr`, `GLsizeiptr`,
`GLintptrARB`, `GLsizeiptrARB` (all `ptrdiff_t`) are sized to the
platform's pointer width `w` rather than a fixed width; `GLint` and
`GLsizei` are 4-byte signed; `GLint64`/`GLuint64` are exact 64-bit types
(signed and unsigned respectively). -/
theorem gl_type_widths :
    ∀ w : Nat,
      (glDecls.all
        (fun d => (scalarsOfDecl d).all
          (fun s => decide (s ∈ declaredTypedefs))) = true)
      ∧ (sizeofScalar w .GLintptr = w ∧ sizeofScalar w .GLsizeiptr = w
         ∧ sizeofScalar w .GLintptrARB = w ∧ sizeofScalar w .GLsizeiptrARB = w)
      ∧ (sizeofScalar w .GLint = 4 ∧ scalarSigned .GLint = true
         ∧ sizeofScalar w .GLsizei = 4 ∧ scalarSigned .GLsizei = true)
      ∧ (sizeofScalar w .GLint64 = 8 ∧ scalarSigned .GLint64 = true
         ∧ sizeofScalar w .GLuint64 = 8 ∧ scalarSigned .GLuint64 = false) :=
  fun _ => ⟨by decide, ⟨rfl, rfl, rfl, rfl⟩, ⟨rfl, rfl, rfl, rfl⟩,
    ⟨rfl, rfl, rfl, rfl⟩⟩

/-- C10: the table handle is fully opaque at the declared surface: every
trampoline takes it as an untyped `void*` in first position; the sole
non-trampoline operation `gl3_3core_funcs` takes no arguments and returns
only the opaque handle; and no operation of the surface mutates a table
slot — a trampoline call returns the table it was given unchanged, so
every table invariant is preserved by the surface's operations. -/
theorem surface_opacity :
    (glDecls.all
      (fun d => decide (d.params.head? = some ("_glfuncs", CType.ptr .void)))
      = true)
    ∧ gl3_3core_funcs.params = [] ∧ gl3_3core_funcs.ret = CType.ptr .void
    ∧ ∀ (α β μ : Type) (env : Nat → α → μ → μ × β) (t : Table) (i : Nat)
        (a : α) (m : μ) (P : Table → Prop),
        P t → P (callE env t i a m).1 := by
  refine ⟨by decide, rfl, rfl, ?_⟩
  intro α β μ env t i a m P h
  unfold callE
  cases get t i <;> exact h

/-!  Helper lemmas. -/

/-- Every slot of a zero slot list reads as the null sentinel. -/
theorem getD_replicate_zero (n i : Nat) :
    (List.replicate n (0 : Nat)).getD i 0 = 0 := by
  induction n generalizing i with
  | zero => simp [List.getD]
  | succ n ih =>
    cases i with
    | zero => simp [List.replicate_succ]
    | succ i => simp [List.replicate_succ, List.getD_cons_succ, ih]

theorem epNames_length : epNames.length = numEntryPoints := by
  simp [epNames, numEntryPoints]

/-- Reading slot `i` of a table whose slots were produced by mapping the
lookup over the entry-point names yields the looked-up address. -/
theorem mapped_slot (lookup : String → Nat) (i : Nat)
    (h : i < numEntryPoints) :
    (epNames.map lookup).getD i 0 = lookup (epName i) := by
  have h' : i < epNames.length := by rw [epNames_length]; exact h
  rw [List.getD_eq_getElem?_getD, List.getElem?_map,
      List.getElem?_eq_getElem h']
  simp [epName, List.getD_eq_getElem?_getD, List.getElem?_eq_getElem h']

/-- C9: `create c` returns a table tagged to context `c` whose every
entry-point slot is zero-initialized (the unresolved sentinel), and no
resolution happens during creation — `get` fails with
`UnresolvedEntryPoint` on every slot of the fresh table (`create` is not
even given an address-lookup function it could call). -/
theorem create_zero_init (c : Nat) :
    (create c).ctx = c
    ∧ (create c).slots = List.replicate numEntryPoints 0
    ∧ ∀ i : Nat, i < numEntryPoints →
        get (create c) i = .error (.UnresolvedEntryPoint (epName i) c) := by
  refine ⟨rfl, rfl, ?_⟩
  intro i _
  simp only [get, create]
  rw [getD_replicate_zero]
  simp

/-- C9 witness: the fresh table for context 7 reports its first slot
(`glViewport`) unresolved. -/
theorem create_zero_init_witness :
    (0 : Nat) < numEntryPoints
    ∧ get (create 7) 0 = .error (.UnresolvedEntryPoint "glViewport" 7) := by
  have h := (create_zero_init 7).2.2 0 (by decide)
  exact ⟨by decide, h.trans rfl⟩

/-- C1: for every entry point and every table, if the slot is unresolved
(the null sentinel — covering a table on which resolution never ran, a
failed resolution that left the slot null, and a null slot generally),
both `get` and the trampoline fail with `UnresolvedEntryPoint` identifying
the entry point and the table, and the trampoline performs no native call:
for every native environment it returns the memory (hence any invocation
counter) untouched; when the slot is resolved, `get` returns the stored
address. -/
theorem get_callE_unresolved (α β μ : Type) (env : Nat → α → μ → μ × β)
    (t : Table) (i : Nat) (a : α) (m : μ) :
    (t.slots.getD i 0 = 0 →
       get t i = .error (.UnresolvedEntryPoint (epName i) t.ctx)
       ∧ callE env t i a m
           = (t, m, .error (.UnresolvedEntryPoint (epName i) t.ctx)))
    ∧ ∀ v : Nat, t.slots.getD i 0 = v → v ≠ 0 → get t i = .ok v := by
  constructor
  · intro h0
    have hg : get t i = .error (.UnresolvedEntryPoint (epName i) t.ctx) := by
      simp only [get]
      rw [h0]
      simp
    exact ⟨hg, by simp [callE, hg]⟩
  · intro v hv hne
    simp only [get]
    rw [hv, if_neg hne]

/-- C1 witness: on the fresh table of context 2 the `glViewport` trampoline
fails with `UnresolvedEntryPoint` and the counting native stub observes
zero invocations (the counter stays 0). -/
theorem get_callE_unresolved_witness :
    get (create 2) 0 = .error (.UnresolvedEntryPoint "glViewport" 2)
    ∧ callE countStub (create 2) 0 () 0
        = (create 2, 0, .error (.UnresolvedEntryPoint "glViewport" 2)) := by
  have h := (get_callE_unresolved Unit Unit Nat countStub (create 2) 0 () 0).1
      (by decide)
  exact ⟨h.1.trans rfl, h.2.trans rfl⟩

/-- C2: when the slot for an entry point is resolved, the trampoline is
extensionally equal to calling the resolved native function directly with
the same arguments: `get` yields the stored address, the memory produced
by the native function (covering writes through pointer output parameters)
is observed exactly, and the native return value — including any
error/sentinel code the entry point defines — is passed back verbatim,
untranslated. -/
theorem callE_resolved_forwards (α β μ : Type) (env : Nat → α → μ → μ × β)
    (t : Table) (i : Nat) (a : α) (m : μ) (addr : Nat)
    (hv : t.slots.getD i 0 = addr) (hne : addr ≠ 0) :
    get t i = .ok addr
    ∧ callE env t i a m = (t, (env addr a m).1, .ok (env addr a m).2) := by
  have hg : get t i = .ok addr := by
    simp only [get]
    rw [hv, if_neg hne]
  exact ⟨hg, by simp [callE, hg]⟩

/-- C2 witness: with the `glGetIntegerv` slot (index 8) resolved to a stub
that writes the sentinel array `[11, 22, 33]` through its output pointer,
the trampoline call observes exactly that array. -/
theorem callE_resolved_forwards_witness :
    epName 8 = "glGetIntegerv"
    ∧ get tblGetIntegerv 8 = .ok 42
    ∧ callE sentinelStub tblGetIntegerv 8 0 [0, 0, 0]
        = (tblGetIntegerv, [11, 22, 33], .ok ()) := by
  have h := callE_resolved_forwards Int Unit (List Int) sentinelStub
      tblGetIntegerv 8 0 [0, 0, 0] 42 (by decide) (by decide)
  exact ⟨by decide, h.1, h.2.trans rfl⟩

/-- C5: `resolve_all` is idempotent for a fixed address-lookup function:
a second call on the table produced by a successful first call succeeds
and returns that very table, so the contents after two calls are identical
to the contents after one. -/
theorem resolveAll_idempotent (mand : Nat → Bool) (t : Table)
    (lookup : String → Nat) (t₁ : Table)
    (h : resolveAll mand t lookup = .ok t₁) :
    resolveAll mand t₁ lookup = .ok t₁ := by
  unfold resolveAll at h ⊢
  split at h
  · exact absurd h (by simp)
  next hf =>
    injection h with h'
    subst h'
    rfl

/-- C5 witness: re-resolving the fully resolved table of context 3 with the
same lookup returns identical contents. -/
theorem resolveAll_idempotent_witness :
    resolveAll mandAll tblOnes lookupOne = .ok tblOnes :=
  resolveAll_idempotent mandAll (create 3) lookupOne tblOnes rfl

/-- C8: tables of distinct contexts are independent: resolving the table
of context `c1` and then corrupting it (or destroying it) leaves the table
of any other context `c2` unchanged, slot for slot. -/
theorem table_independence (w : World) (c1 c2 : Nat) (mand : Nat → Bool)
    (lookup : String → Nat) (tbad : Table) (h : c1 ≠ c2) :
    corruptW (resolveAllW mand w c1 lookup) c1 tbad c2 = w c2
    ∧ destroyW (resolveAllW mand w c1 lookup) c1 c2 = w c2 := by
  have hne : ¬ (c2 = c1) := fun hh => h hh.symm
  constructor <;> simp [corruptW, destroyW, resolveAllW, setTable, hne]

/-- C8 witness: resolving context 1's table and then corrupting (or
destroying) it leaves context 2's table exactly as created. -/
theorem table_independence_witness :
    corruptW (resolveAllW mandAll worldInit 1 lookupOne) 1 tblBad 2 = create 2
    ∧ destroyW (resolveAllW mandAll worldInit 1 lookupOne) 1 2 = create 2 :=
  table_independence worldInit 1 2 mandAll lookupOne tblBad (by decide)

/-- C4: `resolve_all` fails (with `MissingEntryPoint`) precisely when some
mandatory entry point resolves to null; when it succeeds — in particular
when every null-resolving entry point is optional — every mandatory entry
point's slot holds a non-null address that `get` returns, while `get` on
an absent optional entry point reports `UnresolvedEntryPoint`. -/
theorem resolveAll_mandatory_optional (mand : Nat → Bool)
    (lookup : String → Nat) (t : Table) :
    ((∃ e, resolveAll mand t lookup = .error e)
       ↔ ∃ i : Fin numEntryPoints, mand i.val = true ∧ lookup (epName i.val) = 0)
    ∧ ∀ t', resolveAll mand t lookup = .ok t' →
        (∀ i : Fin numEntryPoints, mand i.val = true →
           ∃ a, a ≠ 0 ∧ get t' i.val = .ok a)
        ∧ (∀ i : Fin numEntryPoints, lookup (epName i.val) = 0 →
           get t' i.val
             = .error (.UnresolvedEntryPoint (epName i.val) t.ctx)) := by
  constructor
  · constructor
    · rintro ⟨e, he⟩
      unfold resolveAll at he
      split at he
      next j hf =>
        have hp := List.find?_some hf
        have hj : j < numEntryPoints :=
          List.mem_range.mp (List.mem_of_find?_eq_some hf)
        rw [Bool.and_eq_true, beq_iff_eq] at hp
        exact ⟨⟨j, hj⟩, hp.1, hp.2⟩
      next hf => exact absurd he (by simp)
    · rintro ⟨i, hm, hl⟩
      unfold resolveAll
      cases hf : (List.range numEntryPoints).find?
          (fun k => mand k && (lookup (epName k) == 0)) with
      | some j => exact ⟨_, rfl⟩
      | none =>
        rw [List.find?_eq_none] at hf
        have hmem : i.val ∈ List.range numEntryPoints :=
          List.mem_range.mpr i.isLt
        have := hf i.val hmem
        rw [Bool.and_eq_true, beq_iff_eq] at this
        exact absurd ⟨hm, hl⟩ this
  · intro t' ht'
    unfold resolveAll at ht'
    split at ht'
    · exact absurd ht' (by simp)
    next hf =>
      injection ht' with h'
      subst h'
      rw [List.find?_eq_none] at hf
      constructor
      · intro i hm
        have hmem : i.val ∈ List.range numEntryPoints :=
          List.mem_range.mpr i.isLt
        have hni := hf i.val hmem
        rw [Bool.and_eq_true, beq_iff_eq] at hni
        have hne : lookup (epName i.val) ≠ 0 := fun hz => hni ⟨hm, hz⟩
        refine ⟨lookup (epName i.val), hne, ?_⟩
        simp only [get]
        rw [mapped_slot lookup i.val i.isLt, if_neg hne]
      · intro i hl
        simp only [get]
        rw [mapped_slot lookup i.val i.isLt, hl]
        simp

/-- C4 witness: with entry point 3 (`glGetTexLevelParameteriv`) optional
and absent from the driver stub, `resolve_all` succeeds, `get` on that
slot reports `UnresolvedEntryPoint`, and a mandatory slot (index 0,
`glViewport`) holds a non-null address. -/
theorem resolveAll_mandatory_optional_witness :
    resolveAll mandOpt (create 1) lookupOpt = .ok tblOpt
    ∧ get tblOpt 3 = .error (.UnresolvedEntryPoint (epName 3) 1)
    ∧ ∃ a, a ≠ 0 ∧ get tblOpt 0 = .ok a := by
  have hres : resolveAll mandOpt (create 1) lookupOpt = .ok tblOpt := rfl
  have h := (resolveAll_mandatory_optional mandOpt lookupOpt (create 1)).2
      tblOpt hres
  exact ⟨hres, h.2 ⟨3, by decide⟩ (by decide), h.1 ⟨0, by decide⟩ (by decide)⟩

/-- C10 witness: a concrete trampoline call returns the very table it was
given, so the concrete invariant "the table equals the fresh table of
context 4" is preserved. -/
theorem surface_opacity_witness :
    (callE countStub (create 4) 0 () 0).1 = create 4 :=
  surface_opacity.2.2.2 Unit Unit Nat countStub (create 4) 0 () 0
    (fun t => t = create 4) rfl

end GL33Core
